import Mathlib

/-
Verification development for the MVT-3 repository.

Part 1 models the opcode VM of src/executor.py: the register file, the
flags, the byte memory, the opcode handlers, and the dispatch performed
by Executor.execute.  Part 2 models the AST-evaluator fragments of
src/eval_scheduler*.py and src/eval_visitor.py that the examined
properties concern: the recursive pattern binder, the match-case loop,
the await/join semantics, call resolution, and declaration/assignment.

Modelling conventions, used throughout:

* Python integers are unbounded, so registers and flags are `Int`.
  Python's `x & 0xFFFFFFFF` is written `x % 2^32` (equal for every
  integer, since Python `&` with an all-ones mask is the two's-complement
  residue and Lean's `%` on `Int` is the nonnegative Euclidean residue).
  Python's `//` and `%` agree with Lean's `/` and `%` on `Int` whenever
  the divisor is positive (both round the quotient toward negative
  infinity in that case).
* Where a handler combines registers with `&`, `|` on full 32-bit masks,
  the operation is computed on the 32-bit residues with `Nat` bitwise
  operators.  This is exactly Python's result whenever the operands are
  in-range register values (nonnegative and below 2^32), the only states
  the proved statements quantify over; a Python value with bits above
  bit 31 or a negative sign would differ.
* Memory is `Int → Nat` (address to byte).  Python's `bytearray` wraps
  negative indices around the end of the buffer and raises on writes
  past it; no statement below exercises an out-of-range address.
* Status strings follow the source's f-strings; the `repr` of the whole
  flag dictionary in POPF's status is abbreviated, and Python's `#0Nx`
  hex formatting is reproduced by `pyHex`.
-/

/-- Registers of the VM of src/executor.py (`VM.__init__`): eight
general-purpose 32-bit slots plus the instruction pointer.  Python keeps
them in a dict of unbounded ints; each handler masks (or fails to mask)
explicitly. -/
structure Regs where
  eax : Int
  ebx : Int
  ecx : Int
  edx : Int
  esi : Int
  edi : Int
  ebp : Int
  esp : Int
  eip : Int
deriving Repr, DecidableEq

/-- Flags of the VM, in the declaration (dict insertion) order of
`VM.__init__`: ZF, CF, SF, OF, PF, AF.  That order is what PUSHF/POPF
serialise. -/
structure Flags where
  zf : Int
  cf : Int
  sf : Int
  of : Int
  pf : Int
  af : Int
deriving Repr, DecidableEq

/-- Whole VM state: registers, flags, byte memory, halted flag.  The
default memory size is 65536 and ESP starts at `mem_size - 4`. -/
structure VM where
  regs : Regs
  flags : Flags
  mem : Int → Nat
  halted : Bool

/-- Initial state of `VM(mem_size=65536)`: all registers and flags zero
except `ESP = 65536 - 4`, memory zeroed, not halted. -/
def initVM : VM :=
  { regs := { eax := 0, ebx := 0, ecx := 0, edx := 0, esi := 0, edi := 0,
              ebp := 0, esp := 65536 - 4, eip := 0 }
  , flags := { zf := 0, cf := 0, sf := 0, of := 0, pf := 0, af := 0 }
  , mem := fun _ => 0
  , halted := false }

/-- Python's `x & 0xFFFFFFFF`: the nonnegative 32-bit residue. -/
def mask32 (x : Int) : Int := x % (2 ^ 32)

/-- The 32-bit residue of a register value, as a natural number; used
where a handler feeds a register into `Nat` bitwise operations. -/
def res32 (x : Int) : Nat := (x % (2 ^ 32)).toNat

/-- Number of set bits in a byte, written out over the eight bit
positions; equals Python's `bin(x).count("1")` for `x < 256`. -/
def popcount8 (n : Nat) : Nat :=
  n % 2 + n / 2 % 2 + n / 4 % 2 + n / 8 % 2 +
  n / 16 % 2 + n / 32 % 2 + n / 64 % 2 + n / 128 % 2

/-- Flag update of `VM.update_flags_arithmetic(result, bits)`: ZF/SF from
the masked result, CF records that masking changed the value, PF is the
even-parity of the low byte, OF and AF are hardwired to zero. -/
def update_flags_arithmetic (result : Int) (bits : Nat) : Flags :=
  let res : Int := result % (2 ^ bits)
  let resN : Nat := res.toNat
  { zf := if res = 0 then 1 else 0
  , sf := if resN.testBit (bits - 1) then 1 else 0
  , cf := if result ≠ res then 1 else 0
  , of := 0
  , pf := if popcount8 (resN % 256) % 2 = 0 then 1 else 0
  , af := 0 }

/-- Little-endian store of `size` bytes of `v` starting at `addr`
(`value.to_bytes(size, "little")` written into the slice). -/
def writeBytes (m : Int → Nat) (addr : Int) (v : Int) : Nat → (Int → Nat)
  | 0 => m
  | size + 1 =>
    writeBytes (fun a => if a = addr then (v % 256).toNat else m a) (addr + 1) (v / 256) size

/-- Little-endian load of `size` bytes starting at `addr`
(`int.from_bytes(memory[addr:addr+size], "little")`). -/
def readBytes (m : Int → Nat) (addr : Int) : Nat → Nat
  | 0 => 0
  | size + 1 => m addr + 256 * readBytes m (addr + 1) size

/-- Stack push of `VM.push`: ESP drops by 4, then the 32-bit value is
stored little-endian at the new ESP. -/
def VM.push (vm : VM) (value : Int) : VM :=
  let esp := vm.regs.esp - 4
  { vm with regs := { vm.regs with esp := esp }
          , mem := writeBytes vm.mem esp value 4 }

/-- Stack pop of `VM.pop`: read 4 bytes at ESP, bump ESP by 4, return the
value. -/
def VM.pop (vm : VM) : VM × Int :=
  (⟨{ vm.regs with esp := vm.regs.esp + 4 }, vm.flags, vm.mem, vm.halted⟩,
   (readBytes vm.mem vm.regs.esp 4 : Nat))

/-- Lowercase hexadecimal digit. -/
def hexDigit (n : Nat) : Char :=
  if n < 10 then Char.ofNat (48 + n) else Char.ofNat (87 + n)

/-- Hex digits of `n`, most significant first, over `fuel` nibbles. -/
def hexDigits : Nat → Nat → List Char
  | 0, _ => []
  | fuel + 1, n => if n = 0 then [] else hexDigits fuel (n / 16) ++ [hexDigit (n % 16)]

/-- Python's `format(n, "#0Wx")`: `0x`, then the hex digits zero-padded
so the whole string has width `w`. -/
def pyHex (w : Nat) (n : Nat) : String :=
  let ds := if n = 0 then ['0'] else hexDigits 16 n
  let pad := List.replicate (w - 2 - ds.length) '0'
  "0x" ++ String.mk (pad ++ ds)

/- Opcode handlers.  Each mirrors one `op_*` function of src/executor.py;
where the Python file defines a handler name twice, the later definition
is the one the (second, live) `OPCODE_EXECUTORS` dict captures, and that
is the one modelled here. -/

/-- Handler `op_nop` (the Python body also stores a stray `vm.log = None`
attribute, which no other code reads). -/
def op_nop (vm : VM) : VM × String := (vm, "NOP")

/-- Handler `op_hlt` (second definition): set `halted`. -/
def op_hlt (vm : VM) : VM × String :=
  ({ vm with halted := true }, "HLT → execution halted")

/-- Handler `op_add_eax_ebx`: EAX := (EAX + EBX) masked; flags from the
unmasked sum. -/
def op_add_eax_ebx (vm : VM) : VM × String :=
  let result := vm.regs.eax + vm.regs.ebx
  ({ vm with regs := { vm.regs with eax := mask32 result }
           , flags := update_flags_arithmetic result 32 },
   "ADD EAX, EBX → " ++ toString (mask32 result))

/-- Handler `op_sub_eax_ebx`. -/
def op_sub_eax_ebx (vm : VM) : VM × String :=
  let result := vm.regs.eax - vm.regs.ebx
  ({ vm with regs := { vm.regs with eax := mask32 result }
           , flags := update_flags_arithmetic result 32 },
   "SUB EAX, EBX → " ++ toString (mask32 result))

/-- Handler `op_mul_eax_ebx`. -/
def op_mul_eax_ebx (vm : VM) : VM × String :=
  let result := vm.regs.eax * vm.regs.ebx
  ({ vm with regs := { vm.regs with eax := mask32 result }
           , flags := update_flags_arithmetic result 32 },
   "MUL EAX, EBX → " ++ toString (mask32 result))

/-- Handler `op_imul_eax_ebx`: the product is masked before both the
store and the flag update. -/
def op_imul_eax_ebx (vm : VM) : VM × String :=
  let result := mask32 (vm.regs.eax * vm.regs.ebx)
  ({ vm with regs := { vm.regs with eax := result }
           , flags := update_flags_arithmetic result 32 },
   "IMUL EAX, EBX → " ++ toString result)

/-- Handler `op_div_eax_ebx`: EBX zero halts with a diagnostic and leaves
everything else untouched; otherwise EAX,EDX := quotient,remainder
(unmasked) and flags follow the quotient. -/
def op_div_eax_ebx (vm : VM) : VM × String :=
  if vm.regs.ebx = 0 then
    ({ vm with halted := true }, "DIV by zero → HALT")
  else
    let q := vm.regs.eax / vm.regs.ebx
    let r := vm.regs.eax % vm.regs.ebx
    ({ vm with regs := { vm.regs with eax := q, edx := r }
             , flags := update_flags_arithmetic q 32 },
     "DIV EAX/EBX → EAX=" ++ toString q ++ " EDX=" ++ toString r)

/-- Handler `op_idiv_eax_ebx`.  Python computes `int(eax / ebx)` — float
division truncated toward zero — which coincides with floor division for
register values in `[0, 2^32)` (the float quotient of two such values
cannot round across an integer boundary, and truncation equals floor on
nonnegative quotients). -/
def op_idiv_eax_ebx (vm : VM) : VM × String :=
  if vm.regs.ebx = 0 then
    ({ vm with halted := true }, "IDIV by zero → HALT")
  else
    let q := vm.regs.eax / vm.regs.ebx
    let r := vm.regs.eax % vm.regs.ebx
    ({ vm with regs := { vm.regs with eax := q, edx := r }
             , flags := update_flags_arithmetic q 32 },
     "IDIV EAX/EBX → EAX=" ++ toString q ++ " EDX=" ++ toString r)

/-- Handler `op_inc_eax`: the increment is masked before both the store
and the flag update. -/
def op_inc_eax (vm : VM) : VM × String :=
  let v := mask32 (vm.regs.eax + 1)
  ({ vm with regs := { vm.regs with eax := v }
           , flags := update_flags_arithmetic v 32 },
   "INC EAX → " ++ toString v)

/-- Handler `op_dec_eax`. -/
def op_dec_eax (vm : VM) : VM × String :=
  let v := mask32 (vm.regs.eax - 1)
  ({ vm with regs := { vm.regs with eax := v }
           , flags := update_flags_arithmetic v 32 },
   "DEC EAX → " ++ toString v)

/-- Handler `op_and_eax_ebx`: `EAX &= EBX`, computed on the 32-bit
residues (equal to Python's unbounded `&` on in-range register values). -/
def op_and_eax_ebx (vm : VM) : VM × String :=
  let v : Int := (res32 vm.regs.eax &&& res32 vm.regs.ebx : Nat)
  ({ vm with regs := { vm.regs with eax := v }
           , flags := update_flags_arithmetic v 32 },
   "AND EAX, EBX → " ++ toString v)

/-- Handler `op_or_eax_ebx`. -/
def op_or_eax_ebx (vm : VM) : VM × String :=
  let v : Int := (res32 vm.regs.eax ||| res32 vm.regs.ebx : Nat)
  ({ vm with regs := { vm.regs with eax := v }
           , flags := update_flags_arithmetic v 32 },
   "OR EAX, EBX → " ++ toString v)

/-- Handler `op_xor_eax_ebx`. -/
def op_xor_eax_ebx (vm : VM) : VM × String :=
  let v : Int := (res32 vm.regs.eax ^^^ res32 vm.regs.ebx : Nat)
  ({ vm with regs := { vm.regs with eax := v }
           , flags := update_flags_arithmetic v 32 },
   "XOR EAX, EBX → " ++ toString v)

/-- Handler `op_not_eax`: Python's `(~eax) & 0xFFFFFFFF` is
`(-(eax + 1)) % 2^32` for every integer. -/
def op_not_eax (vm : VM) : VM × String :=
  let v := mask32 (-(vm.regs.eax + 1))
  ({ vm with regs := { vm.regs with eax := v }
           , flags := update_flags_arithmetic v 32 },
   "NOT EAX → " ++ toString v)

/-- Handler `op_shl_eax`: `(eax << 1) & 0xFFFFFFFF`, i.e. double then
mask. -/
def op_shl_eax (vm : VM) : VM × String :=
  let v := mask32 (vm.regs.eax * 2)
  ({ vm with regs := { vm.regs with eax := v }
           , flags := update_flags_arithmetic v 32 },
   "SHL EAX, 1 → " ++ toString v)

/-- Handler `op_shr_eax`: `(eax >> 1) & 0xFFFFFFFF`; Python's `>> 1`
floors, which is Lean's `/ 2` on `Int`. -/
def op_shr_eax (vm : VM) : VM × String :=
  let v := mask32 (vm.regs.eax / 2)
  ({ vm with regs := { vm.regs with eax := v }
           , flags := update_flags_arithmetic v 32 },
   "SHR EAX, 1 → " ++ toString v)

/-- Handler `op_sar_eax`: `(eax >> 1) | (eax & 0x80000000)`, keeping the
old bit 31 set in the result; computed on the 32-bit residue. -/
def op_sar_eax (vm : VM) : VM × String :=
  let a := res32 vm.regs.eax
  let v : Int := ((a / 2) ||| (a &&& 0x80000000) : Nat)
  ({ vm with regs := { vm.regs with eax := v }
           , flags := update_flags_arithmetic v 32 },
   "SAR EAX, 1 → " ++ toString v)

/-- Handler `op_jmp_rel8` (second definition): EIP advances by 1 (the
displacement byte is not decoded). -/
def op_jmp_rel8 (vm : VM) : VM × String :=
  let r := { vm.regs with eip := vm.regs.eip + 1 }
  ({ vm with regs := r }, "JMP rel8 → EIP=" ++ toString r.eip)

/-- Handler `op_jmp_rel32` (second definition): EIP advances by 4. -/
def op_jmp_rel32 (vm : VM) : VM × String :=
  let r := { vm.regs with eip := vm.regs.eip + 4 }
  ({ vm with regs := r }, "JMP rel32 → EIP=" ++ toString r.eip)

/-- Handler `op_call_rel32` — the second definition in the source, which
is the one the live dispatch table captures: push the current EIP, then
advance EIP by 4. -/
def op_call_rel32 (vm : VM) : VM × String :=
  let vm1 := vm.push vm.regs.eip
  let r := { vm1.regs with eip := vm1.regs.eip + 4 }
  ({ vm1 with regs := r }, "CALL rel32 → pushed return, EIP=" ++ toString r.eip)

/-- Handler `op_call_rm32`: push EIP and jump to the address in EAX. -/
def op_call_rm32 (vm : VM) : VM × String :=
  let vm1 := vm.push vm.regs.eip
  let r := { vm1.regs with eip := vm1.regs.eax }
  ({ vm1 with regs := r }, "CALL R/M32 → EIP=" ++ toString r.eip)

/-- Handler `op_ret` (second definition): pop into EIP. -/
def op_ret (vm : VM) : VM × String :=
  let (vm1, v) := vm.pop
  let r := { vm1.regs with eip := v }
  ({ vm1 with regs := r }, "RET → EIP=" ++ toString v)

/-- Handler `op_ret_imm16` (second definition): pop into EIP, then bump
ESP by a further 2. -/
def op_ret_imm16 (vm : VM) : VM × String :=
  let (vm1, v) := vm.pop
  let r := { vm1.regs with eip := v, esp := vm1.regs.esp + 2 }
  ({ vm1 with regs := r }, "RET imm16 → EIP=" ++ toString v)

/-- Handler `op_int` (second definition): push EIP and jump to the fixed
vector 0x80. -/
def op_int (vm : VM) : VM × String :=
  let vm1 := vm.push vm.regs.eip
  ({ vm1 with regs := { vm1.regs with eip := 0x80 } },
   "INT imm8 → simulated software interrupt")

/-- Handler `op_int3` (second definition): push EIP and jump to 0xCC. -/
def op_int3 (vm : VM) : VM × String :=
  let vm1 := vm.push vm.regs.eip
  ({ vm1 with regs := { vm1.regs with eip := 0xCC } },
   "INT3 → simulated breakpoint")

/-- Shared conditional-branch core `op_jcc(vm, opcode, cond)`: on a taken
branch EIP advances by 1. -/
def op_jcc (vm : VM) (cond : VM → Bool) : VM × String :=
  if cond vm then
    let r := { vm.regs with eip := vm.regs.eip + 1 }
    ({ vm with regs := r }, "Branch taken → EIP=" ++ toString r.eip)
  else
    (vm, "Branch not taken")

/-- Condition helper `cond_zf`. -/
def cond_zf (vm : VM) : Bool := vm.flags.zf == 1

/-- Condition helper `cond_nz`. -/
def cond_nz (vm : VM) : Bool := vm.flags.zf == 0

/-- Condition helper `cond_sf`. -/
def cond_sf (vm : VM) : Bool := vm.flags.sf == 1

/-- Condition helper `cond_ns`. -/
def cond_ns (vm : VM) : Bool := vm.flags.sf == 0

/-- Condition helper `cond_of`. -/
def cond_of (vm : VM) : Bool := vm.flags.of == 1

/-- Condition helper `cond_no`. -/
def cond_no (vm : VM) : Bool := vm.flags.of == 0

/-- Condition helper `cond_cf`. -/
def cond_cf (vm : VM) : Bool := vm.flags.cf == 1

/-- Condition helper `cond_nc`. -/
def cond_nc (vm : VM) : Bool := vm.flags.cf == 0

/-- Handler `op_cmc`: toggle CF (`flags["CF"] ^= 1`), computed on the
parity residue — every writer of CF in the source stores 0 or 1, where
the xor is the same. -/
def op_cmc (vm : VM) : VM × String :=
  let f := { vm.flags with cf := ((vm.flags.cf % 2).toNat ^^^ 1 : Nat) }
  ({ vm with flags := f }, "CMC → CF=" ++ toString f.cf)

/-- Handler `op_clc`. -/
def op_clc (vm : VM) : VM × String :=
  ({ vm with flags := { vm.flags with cf := 0 } }, "CLC → CF=0")

/-- Handler `op_stc`. -/
def op_stc (vm : VM) : VM × String :=
  ({ vm with flags := { vm.flags with cf := 1 } }, "STC → CF=1")

/-- Handler `op_cli`: no state change. -/
def op_cli (vm : VM) : VM × String :=
  (vm, "CLI → interrupts disabled (simulated)")

/-- Handler `op_sti`. -/
def op_sti (vm : VM) : VM × String :=
  (vm, "STI → interrupts enabled (simulated)")

/-- Handler `op_cld`. -/
def op_cld (vm : VM) : VM × String :=
  (vm, "CLD → direction flag cleared (simulated)")

/-- Handler `op_std`. -/
def op_std (vm : VM) : VM × String :=
  (vm, "STD → direction flag set (simulated)")

/-- Handler `op_iret`: pop into EIP. -/
def op_iret (vm : VM) : VM × String :=
  let (vm1, v) := vm.pop
  ({ vm1 with regs := { vm1.regs with eip := v } }, "IRET → EIP=" ++ toString v)

/-- Handler `op_loop`: decrement ECX with no mask (so ECX can go
negative), branch taken when the decremented ECX is nonzero. -/
def op_loop (vm : VM) : VM × String :=
  let ecx := vm.regs.ecx - 1
  if ecx ≠ 0 then
    ({ vm with regs := { vm.regs with ecx := ecx, eip := vm.regs.eip + 1 } },
     "LOOP → ECX=" ++ toString ecx ++ " (taken)")
  else
    ({ vm with regs := { vm.regs with ecx := ecx } },
     "LOOP → ECX=" ++ toString ecx ++ " (not taken)")

/-- Handler `op_loope`: like LOOP but also requires ZF=1. -/
def op_loope (vm : VM) : VM × String :=
  let ecx := vm.regs.ecx - 1
  if ecx ≠ 0 ∧ vm.flags.zf = 1 then
    ({ vm with regs := { vm.regs with ecx := ecx, eip := vm.regs.eip + 1 } },
     "LOOPE → ECX=" ++ toString ecx ++ " ZF=1 (taken)")
  else
    ({ vm with regs := { vm.regs with ecx := ecx } }, "LOOPE → not taken")

/-- Handler `op_loopne`: like LOOP but also requires ZF=0. -/
def op_loopne (vm : VM) : VM × String :=
  let ecx := vm.regs.ecx - 1
  if ecx ≠ 0 ∧ vm.flags.zf = 0 then
    ({ vm with regs := { vm.regs with ecx := ecx, eip := vm.regs.eip + 1 } },
     "LOOPNE → ECX=" ++ toString ecx ++ " ZF=0 (taken)")
  else
    ({ vm with regs := { vm.regs with ecx := ecx } }, "LOOPNE → not taken")

/-- Handler `op_mov_imm_eax`: the immediate is simulated as 1. -/
def op_mov_imm_eax (vm : VM) : VM × String :=
  ({ vm with regs := { vm.regs with eax := 1 } }, "MOV EAX, imm32 → 1")

/-- Handler `op_mov_r32_rm32`: EAX := EBX. -/
def op_mov_r32_rm32 (vm : VM) : VM × String :=
  ({ vm with regs := { vm.regs with eax := vm.regs.ebx } },
   "MOV EAX, EBX → " ++ toString vm.regs.ebx)

/-- Handler `op_mov_rm32_r32`: EBX := EAX. -/
def op_mov_rm32_r32 (vm : VM) : VM × String :=
  ({ vm with regs := { vm.regs with ebx := vm.regs.eax } },
   "MOV EBX, EAX → " ++ toString vm.regs.eax)

/-- Handler `op_push_ecx`. -/
def op_push_ecx (vm : VM) : VM × String :=
  (vm.push vm.regs.ecx, "PUSH ECX → " ++ toString vm.regs.ecx)

/-- Handler `op_pop_ecx`. -/
def op_pop_ecx (vm : VM) : VM × String :=
  let (vm1, v) := vm.pop
  ({ vm1 with regs := { vm1.regs with ecx := v } }, "POP ECX → " ++ toString v)

/-- Handler `op_push_edx`. -/
def op_push_edx (vm : VM) : VM × String :=
  (vm.push vm.regs.edx, "PUSH EDX → " ++ toString vm.regs.edx)

/-- Handler `op_pop_edx`. -/
def op_pop_edx (vm : VM) : VM × String :=
  let (vm1, v) := vm.pop
  ({ vm1 with regs := { vm1.regs with edx := v } }, "POP EDX → " ++ toString v)

/-- Handler `op_push_ebx`. -/
def op_push_ebx (vm : VM) : VM × String :=
  (vm.push vm.regs.ebx, "PUSH EBX → " ++ toString vm.regs.ebx)

/-- Handler `op_pop_ebx`. -/
def op_pop_ebx (vm : VM) : VM × String :=
  let (vm1, v) := vm.pop
  ({ vm1 with regs := { vm1.regs with ebx := v } }, "POP EBX → " ++ toString v)

/-- Handler `op_push_eax` (second definition). -/
def op_push_eax (vm : VM) : VM × String :=
  (vm.push vm.regs.eax, "PUSH EAX → " ++ toString vm.regs.eax)

/-- Handler `op_pop_eax` (second definition). -/
def op_pop_eax (vm : VM) : VM × String :=
  let (vm1, v) := vm.pop
  ({ vm1 with regs := { vm1.regs with eax := v } }, "POP EAX → " ++ toString v)

/-- Handler `op_push_ebp` (defined twice with identical bodies). -/
def op_push_ebp (vm : VM) : VM × String :=
  (vm.push vm.regs.ebp, "PUSH EBP → " ++ toString vm.regs.ebp)

/-- Handler `op_pop_ebp` (defined twice with identical bodies). -/
def op_pop_ebp (vm : VM) : VM × String :=
  let (vm1, v) := vm.pop
  ({ vm1 with regs := { vm1.regs with ebp := v } }, "POP EBP → " ++ toString v)

/-- Handler `op_push_esi`. -/
def op_push_esi (vm : VM) : VM × String :=
  (vm.push vm.regs.esi, "PUSH ESI → " ++ toString vm.regs.esi)

/-- Handler `op_pop_esi`. -/
def op_pop_esi (vm : VM) : VM × String :=
  let (vm1, v) := vm.pop
  ({ vm1 with regs := { vm1.regs with esi := v } }, "POP ESI → " ++ toString v)

/-- Handler `op_push_edi`. -/
def op_push_edi (vm : VM) : VM × String :=
  (vm.push vm.regs.edi, "PUSH EDI → " ++ toString vm.regs.edi)

/-- Handler `op_pop_edi`. -/
def op_pop_edi (vm : VM) : VM × String :=
  let (vm1, v) := vm.pop
  ({ vm1 with regs := { vm1.regs with edi := v } }, "POP EDI → " ++ toString v)

/-- Handler `op_stosb`: store the low byte of EAX at `[EDI]` and advance
EDI by 1 with no mask. -/
def op_stosb (vm : VM) : VM × String :=
  let addr := vm.regs.edi
  let b := (vm.regs.eax % 256).toNat
  ({ vm with mem := fun a => if a = addr then b else vm.mem a
           , regs := { vm.regs with edi := vm.regs.edi + 1 } },
   "STOSB → MEM[" ++ toString addr ++ "]=" ++ toString b)

/-- Handler `op_stosd`: store EAX as a dword at `[EDI]`, advance EDI by
4. -/
def op_stosd (vm : VM) : VM × String :=
  let addr := vm.regs.edi
  ({ vm with mem := writeBytes vm.mem addr vm.regs.eax 4
           , regs := { vm.regs with edi := vm.regs.edi + 4 } },
   "STOSD → MEM[" ++ toString addr ++ "]=" ++ toString vm.regs.eax)

/-- Handler `op_test_al_imm8` with its placeholder immediate 1:
`(EAX & 0xFF) & 1`, flags at width 8. -/
def op_test_al_imm8 (vm : VM) : VM × String :=
  let res := vm.regs.eax % 256 % 2
  let f := update_flags_arithmetic res 8
  ({ vm with flags := f }, "TEST AL, 1 → ZF=" ++ toString f.zf)

/-- Handler `op_test_eax_imm32` with its placeholder immediate 1:
`EAX & 1` is the parity bit `EAX % 2`. -/
def op_test_eax_imm32 (vm : VM) : VM × String :=
  let res := vm.regs.eax % 2
  let f := update_flags_arithmetic res 32
  ({ vm with flags := f }, "TEST EAX, 1 → ZF=" ++ toString f.zf)

/-- Handler `op_test_rm8_r8`: AND of the low bytes of EAX and EBX, flags
at width 8. -/
def op_test_rm8_r8 (vm : VM) : VM × String :=
  let res : Int := ((vm.regs.eax % 256).toNat &&& (vm.regs.ebx % 256).toNat : Nat)
  let f := update_flags_arithmetic res 8
  ({ vm with flags := f }, "TEST R/M8, R8 → ZF=" ++ toString f.zf)

/-- Handler `op_test_rm32_r32`: `EAX & EBX` on the 32-bit residues. -/
def op_test_rm32_r32 (vm : VM) : VM × String :=
  let res : Int := (res32 vm.regs.eax &&& res32 vm.regs.ebx : Nat)
  let f := update_flags_arithmetic res 32
  ({ vm with flags := f }, "TEST R/M32, R32 → ZF=" ++ toString f.zf)

/-- Handler `op_inc_edi`: masked increment of EDI, flags from the new
EDI. -/
def op_inc_edi (vm : VM) : VM × String :=
  let v := mask32 (vm.regs.edi + 1)
  ({ vm with regs := { vm.regs with edi := v }
           , flags := update_flags_arithmetic v 32 },
   "INC EDI → " ++ toString v)

/-- Handler `op_dec_ecx`: masked decrement of ECX, flags from the new
ECX. -/
def op_dec_ecx (vm : VM) : VM × String :=
  let v := mask32 (vm.regs.ecx - 1)
  ({ vm with regs := { vm.regs with ecx := v }
           , flags := update_flags_arithmetic v 32 },
   "DEC ECX → " ++ toString v)

/-- Handler `op_push_rm32`: pushes EAX (the R/M operand is assumed to be
EAX). -/
def op_push_rm32 (vm : VM) : VM × String :=
  (vm.push vm.regs.eax, "PUSH R/M32 → " ++ toString vm.regs.eax)

/-- Handler `op_pop_rm32`: pops into EAX. -/
def op_pop_rm32 (vm : VM) : VM × String :=
  let (vm1, v) := vm.pop
  ({ vm1 with regs := { vm1.regs with eax := v } }, "POP R/M32 → " ++ toString v)

/-- Handler `op_jmp_rm32`: EIP := EAX. -/
def op_jmp_rm32 (vm : VM) : VM × String :=
  ({ vm with regs := { vm.regs with eip := vm.regs.eax } },
   "JMP R/M32 → EIP=" ++ toString vm.regs.eax)

/-- Handler `op_jne_rel8`: taken when ZF=0. -/
def op_jne_rel8 (vm : VM) : VM × String :=
  if vm.flags.zf = 0 then
    let r := { vm.regs with eip := vm.regs.eip + 1 }
    ({ vm with regs := r }, "JNE rel8 → taken, EIP=" ++ toString r.eip)
  else (vm, "JNE rel8 → not taken")

/-- Handler `op_je_rel8`: taken when ZF=1. -/
def op_je_rel8 (vm : VM) : VM × String :=
  if vm.flags.zf = 1 then
    let r := { vm.regs with eip := vm.regs.eip + 1 }
    ({ vm with regs := r }, "JE rel8 → taken, EIP=" ++ toString r.eip)
  else (vm, "JE rel8 → not taken")

/-- Handler `op_jl_rel8`: taken when SF≠OF. -/
def op_jl_rel8 (vm : VM) : VM × String :=
  if vm.flags.sf ≠ vm.flags.of then
    let r := { vm.regs with eip := vm.regs.eip + 1 }
    ({ vm with regs := r }, "JL rel8 → taken, EIP=" ++ toString r.eip)
  else (vm, "JL rel8 → not taken")

/-- Handler `op_jle_rel8`: taken when ZF=1 or SF≠OF. -/
def op_jle_rel8 (vm : VM) : VM × String :=
  if vm.flags.zf = 1 ∨ vm.flags.sf ≠ vm.flags.of then
    let r := { vm.regs with eip := vm.regs.eip + 1 }
    ({ vm with regs := r }, "JLE rel8 → taken, EIP=" ++ toString r.eip)
  else (vm, "JLE rel8 → not taken")

/-- Handler `op_jg_rel8`: taken when ZF=0 and SF=OF. -/
def op_jg_rel8 (vm : VM) : VM × String :=
  if vm.flags.zf = 0 ∧ vm.flags.sf = vm.flags.of then
    let r := { vm.regs with eip := vm.regs.eip + 1 }
    ({ vm with regs := r }, "JG rel8 → taken, EIP=" ++ toString r.eip)
  else (vm, "JG rel8 → not taken")

/-- Handler `op_jge_rel8`: taken when SF=OF. -/
def op_jge_rel8 (vm : VM) : VM × String :=
  if vm.flags.sf = vm.flags.of then
    let r := { vm.regs with eip := vm.regs.eip + 1 }
    ({ vm with regs := r }, "JGE rel8 → taken, EIP=" ++ toString r.eip)
  else (vm, "JGE rel8 → not taken")

/-- Handler `op_jp_rel8`: taken when PF=1. -/
def op_jp_rel8 (vm : VM) : VM × String :=
  if vm.flags.pf = 1 then
    let r := { vm.regs with eip := vm.regs.eip + 1 }
    ({ vm with regs := r }, "JP rel8 → taken, EIP=" ++ toString r.eip)
  else (vm, "JP rel8 → not taken")

/-- Handler `op_jnp_rel8`: taken when PF=0. -/
def op_jnp_rel8 (vm : VM) : VM × String :=
  if vm.flags.pf = 0 then
    let r := { vm.regs with eip := vm.regs.eip + 1 }
    ({ vm with regs := r }, "JNP rel8 → taken, EIP=" ++ toString r.eip)
  else (vm, "JNP rel8 → not taken")

/-- Handler `op_jo_rel8`: taken when OF=1. -/
def op_jo_rel8 (vm : VM) : VM × String :=
  if vm.flags.of = 1 then
    let r := { vm.regs with eip := vm.regs.eip + 1 }
    ({ vm with regs := r }, "JO rel8 → taken, EIP=" ++ toString r.eip)
  else (vm, "JO rel8 → not taken")

/-- Handler `op_jno_rel8`: taken when OF=0. -/
def op_jno_rel8 (vm : VM) : VM × String :=
  if vm.flags.of = 0 then
    let r := { vm.regs with eip := vm.regs.eip + 1 }
    ({ vm with regs := r }, "JNO rel8 → taken, EIP=" ++ toString r.eip)
  else (vm, "JNO rel8 → not taken")

/-- Handler `op_js_rel8`: taken when SF=1. -/
def op_js_rel8 (vm : VM) : VM × String :=
  if vm.flags.sf = 1 then
    let r := { vm.regs with eip := vm.regs.eip + 1 }
    ({ vm with regs := r }, "JS rel8 → taken, EIP=" ++ toString r.eip)
  else (vm, "JS rel8 → not taken")

/-- Handler `op_jns_rel8`: taken when SF=0. -/
def op_jns_rel8 (vm : VM) : VM × String :=
  if vm.flags.sf = 0 then
    let r := { vm.regs with eip := vm.regs.eip + 1 }
    ({ vm with regs := r }, "JNS rel8 → taken, EIP=" ++ toString r.eip)
  else (vm, "JNS rel8 → not taken")

/-- Handler `op_jbe_rel8`: taken when CF=1 or ZF=1. -/
def op_jbe_rel8 (vm : VM) : VM × String :=
  if vm.flags.cf = 1 ∨ vm.flags.zf = 1 then
    let r := { vm.regs with eip := vm.regs.eip + 1 }
    ({ vm with regs := r }, "JBE rel8 → taken, EIP=" ++ toString r.eip)
  else (vm, "JBE rel8 → not taken")

/-- Handler `op_ja_rel8`: taken when CF=0 and ZF=0. -/
def op_ja_rel8 (vm : VM) : VM × String :=
  if vm.flags.cf = 0 ∧ vm.flags.zf = 0 then
    let r := { vm.regs with eip := vm.regs.eip + 1 }
    ({ vm with regs := r }, "JA rel8 → taken, EIP=" ++ toString r.eip)
  else (vm, "JA rel8 → not taken")

/-- Handler `op_jz_rel8`: taken when ZF=1. -/
def op_jz_rel8 (vm : VM) : VM × String :=
  if vm.flags.zf = 1 then
    let r := { vm.regs with eip := vm.regs.eip + 1 }
    ({ vm with regs := r }, "JZ rel8 → taken, EIP=" ++ toString r.eip)
  else (vm, "JZ rel8 → not taken")

/-- Handler `op_jnz_rel8`: taken when ZF=0. -/
def op_jnz_rel8 (vm : VM) : VM × String :=
  if vm.flags.zf = 0 then
    let r := { vm.regs with eip := vm.regs.eip + 1 }
    ({ vm with regs := r }, "JNZ rel8 → taken, EIP=" ++ toString r.eip)
  else (vm, "JNZ rel8 → not taken")

/-- Handler `op_jb_rel8`: taken when CF=1. -/
def op_jb_rel8 (vm : VM) : VM × String :=
  if vm.flags.cf = 1 then
    let r := { vm.regs with eip := vm.regs.eip + 1 }
    ({ vm with regs := r }, "JB rel8 → taken, EIP=" ++ toString r.eip)
  else (vm, "JB rel8 → not taken")

/-- Handler `op_jae_rel8`: taken when CF=0. -/
def op_jae_rel8 (vm : VM) : VM × String :=
  if vm.flags.cf = 0 then
    let r := { vm.regs with eip := vm.regs.eip + 1 }
    ({ vm with regs := r }, "JAE rel8 → taken, EIP=" ++ toString r.eip)
  else (vm, "JAE rel8 → not taken")

/-- Handler `op_pushf`: serialise the flags as bits 0..5 in their
declaration order ZF, CF, SF, OF, PF, AF and push the word. -/
def op_pushf (vm : VM) : VM × String :=
  let v := vm.flags.zf + vm.flags.cf * 2 + vm.flags.sf * 4 +
           vm.flags.of * 8 + vm.flags.pf * 16 + vm.flags.af * 32
  (vm.push v, "PUSHF → " ++ pyHex 10 (mask32 v).toNat)

/-- Handler `op_popf`: pop a word and scatter bits 0..5 back into the
flags in the same order. -/
def op_popf (vm : VM) : VM × String :=
  let (vm1, v) := vm.pop
  let f : Flags := { zf := v % 2, cf := v / 2 % 2, sf := v / 4 % 2,
                     of := v / 8 % 2, pf := v / 16 % 2, af := v / 32 % 2 }
  ({ vm1 with flags := f }, "POPF → flags restored")

/-- Handler `op_sahf`: AH (bits 8..15 of EAX) is unpacked into
SF,ZF,AF,PF,CF at bits 7,6,4,2,0. -/
def op_sahf (vm : VM) : VM × String :=
  let ah := vm.regs.eax / 256 % 256
  let f : Flags :=
    { vm.flags with sf := ah / 128 % 2, zf := ah / 64 % 2,
                    af := ah / 16 % 2, pf := ah / 4 % 2, cf := ah % 2 }
  ({ vm with flags := f }, "SAHF → flags updated from AH")

/-- Handler `op_lahf`: pack SF,ZF,AF,PF,CF into AH, preserving the other
bytes of EAX via the mask 0xFFFF00FF (computed on the 32-bit residue). -/
def op_lahf (vm : VM) : VM × String :=
  let ah := vm.flags.sf * 128 + vm.flags.zf * 64 + vm.flags.af * 16 +
            vm.flags.pf * 4 + vm.flags.cf
  let v : Int := ((res32 vm.regs.eax &&& 0xFFFF00FF) : Nat) + ah * 256
  ({ vm with regs := { vm.regs with eax := v } }, "LAHF → AH loaded with flags")

/-- Handler `op_cbw`: sign-extend AL into AX.  When AL has its top bit,
Python ORs `0xFF00` into EAX; otherwise it ANDs with `0xFFFF00FF`
(clearing AH).  Computed on the 32-bit residue. -/
def op_cbw (vm : VM) : VM × String :=
  let a := res32 vm.regs.eax
  let v : Int := if a % 256 ≥ 128 then (a ||| 0xFF00 : Nat) else (a &&& 0xFFFF00FF : Nat)
  ({ vm with regs := { vm.regs with eax := v } }, "CBW → sign-extended AL into AX")

/-- Handler `op_cwd`: EDX := 0xFFFF when AX has its top bit, else 0. -/
def op_cwd (vm : VM) : VM × String :=
  let ax := res32 vm.regs.eax % 65536
  let v : Int := if ax ≥ 32768 then 0xFFFF else 0
  ({ vm with regs := { vm.regs with edx := v } }, "CWD → sign-extended AX into DX")

/-- Handler `op_callf`: there is no CS register, so 0 is pushed, then
`EIP + 4`; EIP jumps to 0x1000. -/
def op_callf (vm : VM) : VM × String :=
  let vm1 := vm.push 0
  let vm2 := vm1.push (vm1.regs.eip + 4)
  ({ vm2 with regs := { vm2.regs with eip := 0x1000 } }, "CALLF → simulated far call")

/-- Handler `op_wait`: no state change. -/
def op_wait (vm : VM) : VM × String :=
  (vm, "WAIT → simulated FPU wait")

/-- Handler `op_movsb`: copy the byte at `[ESI]` to `[EDI]`, advance both
by 1 (unmasked). -/
def op_movsb (vm : VM) : VM × String :=
  let src := vm.mem vm.regs.esi
  let addr := vm.regs.edi
  ({ vm with mem := fun a => if a = addr then src else vm.mem a
           , regs := { vm.regs with esi := vm.regs.esi + 1, edi := vm.regs.edi + 1 } },
   "MOVSB → copied byte " ++ pyHex 4 src)

/-- Handler `op_movsd`: copy a dword from `[ESI]` to `[EDI]`, advance
both by 4. -/
def op_movsd (vm : VM) : VM × String :=
  let v := readBytes vm.mem vm.regs.esi 4
  ({ vm with mem := writeBytes vm.mem vm.regs.edi (v : Int) 4
           , regs := { vm.regs with esi := vm.regs.esi + 4, edi := vm.regs.edi + 4 } },
   "MOVSD → copied dword " ++ pyHex 10 v)

/-- Handler `op_cmpsb`: compare the bytes at `[ESI]` and `[EDI]`, set
flags at width 8, advance both pointers. -/
def op_cmpsb (vm : VM) : VM × String :=
  let a := vm.mem vm.regs.esi
  let b := vm.mem vm.regs.edi
  ({ vm with flags := update_flags_arithmetic ((a : Int) - (b : Int)) 8
           , regs := { vm.regs with esi := vm.regs.esi + 1, edi := vm.regs.edi + 1 } },
   "CMPSB → compared " ++ pyHex 4 a ++ " vs " ++ pyHex 4 b)

/-- Handler `op_cmpsd`: compare the dwords at `[ESI]` and `[EDI]`. -/
def op_cmpsd (vm : VM) : VM × String :=
  let a := readBytes vm.mem vm.regs.esi 4
  let b := readBytes vm.mem vm.regs.edi 4
  ({ vm with flags := update_flags_arithmetic ((a : Int) - (b : Int)) 32
           , regs := { vm.regs with esi := vm.regs.esi + 4, edi := vm.regs.edi + 4 } },
   "CMPSD → compared " ++ pyHex 10 a ++ " vs " ++ pyHex 10 b)

/-- Handler `op_lodsb`: load the byte at `[ESI]` into AL (keeping the
upper bytes of EAX via the mask 0xFFFFFF00 on the residue), advance
ESI. -/
def op_lodsb (vm : VM) : VM × String :=
  let v := vm.mem vm.regs.esi
  let eax : Int := ((res32 vm.regs.eax &&& 0xFFFFFF00 : Nat) + v : Nat)
  ({ vm with regs := { vm.regs with eax := eax, esi := vm.regs.esi + 1 } },
   "LODSB → loaded AL=" ++ pyHex 4 v)

/-- Handler `op_lodsd`: EAX := dword at `[ESI]`, advance ESI by 4. -/
def op_lodsd (vm : VM) : VM × String :=
  let v := readBytes vm.mem vm.regs.esi 4
  ({ vm with regs := { vm.regs with eax := (v : Int), esi := vm.regs.esi + 4 } },
   "LODSD → loaded EAX=" ++ pyHex 10 v)

/-- Handler `op_scasb`: compare AL with the byte at `[EDI]`, flags at
width 8, advance EDI. -/
def op_scasb (vm : VM) : VM × String :=
  let a := vm.regs.eax % 256
  let b := vm.mem vm.regs.edi
  ({ vm with flags := update_flags_arithmetic (a - (b : Int)) 8
           , regs := { vm.regs with edi := vm.regs.edi + 1 } },
   "SCASB → compared AL=" ++ pyHex 4 a.toNat ++ " vs " ++ pyHex 4 b)

/-- Handler `op_scasd`: compare EAX with the dword at `[EDI]`, advance
EDI by 4. -/
def op_scasd (vm : VM) : VM × String :=
  let b := readBytes vm.mem vm.regs.edi 4
  ({ vm with flags := update_flags_arithmetic (vm.regs.eax - (b : Int)) 32
           , regs := { vm.regs with edi := vm.regs.edi + 4 } },
   "SCASD → compared EAX=" ++ pyHex 10 (res32 vm.regs.eax) ++ " vs " ++ pyHex 10 b)

/-- Handler `op_xchg_eax_esp`. -/
def op_xchg_eax_esp (vm : VM) : VM × String :=
  ({ vm with regs := { vm.regs with eax := vm.regs.esp, esp := vm.regs.eax } },
   "XCHG EAX, ESP → EAX=" ++ toString vm.regs.esp ++ " ESP=" ++ toString vm.regs.eax)

/-- Handler `op_xchg_eax_ebp`. -/
def op_xchg_eax_ebp (vm : VM) : VM × String :=
  ({ vm with regs := { vm.regs with eax := vm.regs.ebp, ebp := vm.regs.eax } },
   "XCHG EAX, EBP → EAX=" ++ toString vm.regs.ebp ++ " EBP=" ++ toString vm.regs.eax)

/-- Handler `op_xchg_eax_esi`. -/
def op_xchg_eax_esi (vm : VM) : VM × String :=
  ({ vm with regs := { vm.regs with eax := vm.regs.esi, esi := vm.regs.eax } },
   "XCHG EAX, ESI → EAX=" ++ toString vm.regs.esi ++ " ESI=" ++ toString vm.regs.eax)

/-- Handler `op_xchg_eax_edi`. -/
def op_xchg_eax_edi (vm : VM) : VM × String :=
  ({ vm with regs := { vm.regs with eax := vm.regs.edi, edi := vm.regs.eax } },
   "XCHG EAX, EDI → EAX=" ++ toString vm.regs.edi ++ " EDI=" ++ toString vm.regs.eax)

/-- Handler `op_cmp_rm32_imm32` with its placeholder immediate 1: flags
from `EAX - 1`, no register writes. -/
def op_cmp_rm32_imm32 (vm : VM) : VM × String :=
  let f := update_flags_arithmetic (vm.regs.eax - 1) 32
  ({ vm with flags := f }, "CMP EAX, 1 → ZF=" ++ toString f.zf)

/-- Handler `op_cmp_rm32_r32`: flags from `EAX - EBX`. -/
def op_cmp_rm32_r32 (vm : VM) : VM × String :=
  let f := update_flags_arithmetic (vm.regs.eax - vm.regs.ebx) 32
  ({ vm with flags := f }, "CMP EAX, EBX → ZF=" ++ toString f.zf)

/-- Handler `op_mul_rm32`: wide multiply; low half to EAX, high half to
EDX, flags from the low half. -/
def op_mul_rm32 (vm : VM) : VM × String :=
  let result := vm.regs.eax * vm.regs.ebx
  let lo := mask32 result
  let hi := mask32 (result / 2 ^ 32)
  ({ vm with regs := { vm.regs with eax := lo, edx := hi }
           , flags := update_flags_arithmetic lo 32 },
   "MUL EAX*EBX → EAX=" ++ toString lo ++ " EDX=" ++ toString hi)

/-- Handler `op_imul_rm32`: the product is first masked to 64 bits, then
split as in `op_mul_rm32`. -/
def op_imul_rm32 (vm : VM) : VM × String :=
  let result := (vm.regs.eax * vm.regs.ebx) % 2 ^ 64
  let lo := mask32 result
  let hi := mask32 (result / 2 ^ 32)
  ({ vm with regs := { vm.regs with eax := lo, edx := hi }
           , flags := update_flags_arithmetic lo 32 },
   "IMUL EAX*EBX → EAX=" ++ toString lo ++ " EDX=" ++ toString hi)

/-- Handler `op_div_rm32`: 64-bit dividend `EDX:EAX` (which for in-range
registers is `EDX * 2^32 + EAX`, matching Python's `(EDX << 32) | EAX`);
a zero EBX halts with a diagnostic and changes nothing else. -/
def op_div_rm32 (vm : VM) : VM × String :=
  if vm.regs.ebx = 0 then
    ({ vm with halted := true }, "DIV by zero → HALT")
  else
    let dividend := vm.regs.edx * 2 ^ 32 + vm.regs.eax
    let q := mask32 (dividend / vm.regs.ebx)
    let r := mask32 (dividend % vm.regs.ebx)
    ({ vm with regs := { vm.regs with eax := q, edx := r }
             , flags := update_flags_arithmetic q 32 },
     "DIV EDX:EAX/EBX → EAX=" ++ toString q ++ " EDX=" ++ toString r)

/-- Handler `op_idiv_rm32`.  Python computes `int(dividend / divisor)`
with float division, which deviates from floor division once the
dividend exceeds 2^53; no statement below depends on that quotient, and
the divide-by-zero path (the one that is used) is modelled exactly. -/
def op_idiv_rm32 (vm : VM) : VM × String :=
  if vm.regs.ebx = 0 then
    ({ vm with halted := true }, "IDIV by zero → HALT")
  else
    let dividend := vm.regs.edx * 2 ^ 32 + vm.regs.eax
    let q := mask32 (dividend / vm.regs.ebx)
    let r := mask32 (dividend % vm.regs.ebx)
    ({ vm with regs := { vm.regs with eax := q, edx := r }
             , flags := update_flags_arithmetic q 32 },
     "IDIV EDX:EAX/EBX → EAX=" ++ toString q ++ " EDX=" ++ toString r)

/-- Shared shape of the SETcc handlers: write 0 or 1 into AL, preserving
the rest of EAX via the mask 0xFFFFFF00 (on the 32-bit residue). -/
def setAL (vm : VM) (b : Bool) : Int :=
  ((res32 vm.regs.eax &&& 0xFFFFFF00 : Nat) + (if b then 1 else 0) : Nat)

/-- Handler `op_sete_al`. -/
def op_sete_al (vm : VM) : VM × String :=
  let v := setAL vm (vm.flags.zf = 1)
  ({ vm with regs := { vm.regs with eax := v } }, "SETE AL → AL=" ++ toString (v % 256))

/-- Handler `op_setne_al`. -/
def op_setne_al (vm : VM) : VM × String :=
  let v := setAL vm (vm.flags.zf = 0)
  ({ vm with regs := { vm.regs with eax := v } }, "SETNE AL → AL=" ++ toString (v % 256))

/-- Handler `op_setl_al`: SF≠OF. -/
def op_setl_al (vm : VM) : VM × String :=
  let v := setAL vm (vm.flags.sf ≠ vm.flags.of)
  ({ vm with regs := { vm.regs with eax := v } }, "SETL AL → AL=" ++ toString (v % 256))

/-- Handler `op_setge_al`: SF=OF. -/
def op_setge_al (vm : VM) : VM × String :=
  let v := setAL vm (vm.flags.sf = vm.flags.of)
  ({ vm with regs := { vm.regs with eax := v } }, "SETGE AL → AL=" ++ toString (v % 256))

/-- Handler `op_setg_al`: ZF=0 and SF=OF. -/
def op_setg_al (vm : VM) : VM × String :=
  let v := setAL vm (vm.flags.zf = 0 ∧ vm.flags.sf = vm.flags.of)
  ({ vm with regs := { vm.regs with eax := v } }, "SETG AL → AL=" ++ toString (v % 256))

/-- Handler `op_setle_al`: ZF=1 or SF≠OF. -/
def op_setle_al (vm : VM) : VM × String :=
  let v := setAL vm (vm.flags.zf = 1 ∨ vm.flags.sf ≠ vm.flags.of)
  ({ vm with regs := { vm.regs with eax := v } }, "SETLE AL → AL=" ++ toString (v % 256))

/-- Handler `op_seto_al`: OF=1. -/
def op_seto_al (vm : VM) : VM × String :=
  let v := setAL vm (vm.flags.of = 1)
  ({ vm with regs := { vm.regs with eax := v } }, "SETO AL → AL=" ++ toString (v % 256))

/-- Handler `op_setno_al`: OF=0. -/
def op_setno_al (vm : VM) : VM × String :=
  let v := setAL vm (vm.flags.of = 0)
  ({ vm with regs := { vm.regs with eax := v } }, "SETNO AL → AL=" ++ toString (v % 256))

/-- Dispatch dictionary `OPCODE_EXECUTORS`, as the association list of
its entries in key order.  The executor source builds this dict literal
twice; the second literal (the one in force at import time, which also
captures the later rebindings of names such as `op_call_rel32`) is the
one modelled. -/
def OPCODE_EXECUTORS : List (Nat × (VM → VM × String)) :=
  [ (0x00, op_nop)
  , (0x0B, op_add_eax_ebx)
  , (0x0C, op_sub_eax_ebx)
  , (0x0D, op_mul_eax_ebx)
  , (0x0E, op_imul_eax_ebx)
  , (0x0F, op_div_eax_ebx)
  , (0x10, op_idiv_eax_ebx)
  , (0x11, op_inc_eax)
  , (0x12, op_dec_eax)
  , (0x1B, op_and_eax_ebx)
  , (0x1C, op_or_eax_ebx)
  , (0x1D, op_xor_eax_ebx)
  , (0x1E, op_not_eax)
  , (0x1F, op_shl_eax)
  , (0x20, op_shr_eax)
  , (0x21, op_sar_eax)
  , (0x2E, op_jmp_rel8)
  , (0x2F, op_jmp_rel32)
  , (0x30, op_call_rel32)
  , (0x31, op_call_rm32)
  , (0x32, op_ret)
  , (0x33, op_ret_imm16)
  , (0x34, op_int)
  , (0x35, op_int3)
  , (0x36, fun vm => op_jcc vm cond_zf)
  , (0x37, fun vm => op_jcc vm cond_nz)
  , (0x38, fun vm => op_jcc vm cond_sf)
  , (0x39, fun vm => op_jcc vm cond_ns)
  , (0x3A, fun vm => op_jcc vm cond_of)
  , (0x3B, fun vm => op_jcc vm cond_no)
  , (0x3C, fun vm => op_jcc vm cond_cf)
  , (0x3D, fun vm => op_jcc vm cond_nc)
  , (0x40, op_hlt)
  , (0x41, op_cmc)
  , (0x42, op_clc)
  , (0x43, op_stc)
  , (0x44, op_cli)
  , (0x45, op_sti)
  , (0x46, op_cld)
  , (0x47, op_std)
  , (0x48, op_iret)
  , (0x49, op_loop)
  , (0x4A, op_loope)
  , (0x4B, op_loopne)
  , (0x54, op_mov_imm_eax)
  , (0x55, op_mov_r32_rm32)
  , (0x56, op_mov_rm32_r32)
  , (0x57, op_push_ecx)
  , (0x58, op_pop_ecx)
  , (0x59, op_push_edx)
  , (0x5A, op_pop_edx)
  , (0x5B, op_push_ebx)
  , (0x5C, op_pop_ebx)
  , (0x5D, op_push_eax)
  , (0x5E, op_pop_eax)
  , (0x5F, op_push_ebp)
  , (0x60, op_pop_ebp)
  , (0x61, op_push_esi)
  , (0x62, op_pop_esi)
  , (0x63, op_push_edi)
  , (0x64, op_pop_edi)
  , (0x65, op_int)
  , (0x66, op_int3)
  , (0x67, op_ret)
  , (0x68, op_ret_imm16)
  , (0x69, op_stosb)
  , (0x6A, op_stosd)
  , (0x6B, op_test_al_imm8)
  , (0x6C, op_test_eax_imm32)
  , (0x6D, op_test_rm8_r8)
  , (0x6E, op_test_rm32_r32)
  , (0x6F, op_inc_edi)
  , (0x70, op_dec_ecx)
  , (0x71, op_push_rm32)
  , (0x72, op_pop_rm32)
  , (0x73, op_call_rel32)
  , (0x74, op_jmp_rm32)
  , (0x75, op_jmp_rel8)
  , (0x76, op_jmp_rel32)
  , (0x77, op_jne_rel8)
  , (0x78, op_je_rel8)
  , (0x79, op_jl_rel8)
  , (0x7A, op_jle_rel8)
  , (0x7B, op_jg_rel8)
  , (0x7C, op_jge_rel8)
  , (0x7D, op_jp_rel8)
  , (0x7E, op_jnp_rel8)
  , (0x7F, op_jo_rel8)
  , (0x80, op_jno_rel8)
  , (0x81, op_js_rel8)
  , (0x82, op_jns_rel8)
  , (0x83, op_jbe_rel8)
  , (0x84, op_ja_rel8)
  , (0x85, op_jz_rel8)
  , (0x86, op_jnz_rel8)
  , (0x87, op_jb_rel8)
  , (0x88, op_jae_rel8)
  , (0x94, op_pushf)
  , (0x95, op_popf)
  , (0x96, op_sahf)
  , (0x97, op_lahf)
  , (0x98, op_cbw)
  , (0x99, op_cwd)
  , (0x9A, op_callf)
  , (0x9B, op_wait)
  , (0x9C, op_movsb)
  , (0x9D, op_movsd)
  , (0x9E, op_cmpsb)
  , (0x9F, op_cmpsd)
  , (0xA0, op_lodsb)
  , (0xA1, op_lodsd)
  , (0xA2, op_scasb)
  , (0xA3, op_scasd)
  , (0xA4, op_xchg_eax_esp)
  , (0xA5, op_xchg_eax_ebp)
  , (0xA6, op_xchg_eax_esi)
  , (0xA7, op_xchg_eax_edi)
  , (0xA8, op_cmp_rm32_imm32)
  , (0xA9, op_cmp_rm32_r32)
  , (0xAA, op_mul_rm32)
  , (0xAB, op_imul_rm32)
  , (0xAC, op_div_rm32)
  , (0xAD, op_idiv_rm32)
  , (0xB4, op_sete_al)
  , (0xB5, op_setne_al)
  , (0xB6, op_setl_al)
  , (0xB7, op_setge_al)
  , (0xB8, op_setg_al)
  , (0xB9, op_setle_al)
  , (0xBA, op_seto_al)
  , (0xBB, op_setno_al)
  ]

/-- Dictionary lookup `OPCODE_EXECUTORS[opcode]` (keys are unique, so the
first hit is the dict entry). -/
def dispatch (op : Nat) : Option (VM → VM × String) :=
  (OPCODE_EXECUTORS.find? (fun e => e.1 == op)).map (fun e => e.2)

/-- Operation `Executor.execute(opcode)`: an opcode outside the dispatch
table reports an unknown-opcode status without touching the state;
otherwise the handler runs.  Note that `execute` never consults
`vm.halted` — the only halt handling in the source is the CLI driver
loop of `main`, which stops feeding opcodes after a halting step. -/
def vmExecute (opcode : Nat) (vm : VM) : VM × String :=
  match dispatch opcode with
  | none => (vm, "Unknown opcode: " ++ pyHex 3 opcode)
  | some handler => handler vm

/-
Part 2: the AST evaluator.  Runtime values, environments, the recursive
pattern binder of src/eval_scheduler_match_recursive.py, the match-case
loop, the await/join semantics of src/eval_scheduler_join.py and
src/eval_scheduler_nested.py, the call resolution of
src/eval_scheduler_hof.py, and the declaration/assignment statements of
src/eval_visitor.py.

The AST node classes `ObjectPattern`, `DestructureSlot`, `AliasSlot`,
`RestSlot`, `Match` and `Case` are consumed by the evaluators but absent
from src/ast_nodes.py (the modules reference them via a star import);
their structural fields below are read off the consuming code and §3.1
of the specification.  Floating-point values and task-handle objects are
not modelled: no statement below involves them.
-/

/-- Runtime values (§3.2): integers, strings, booleans, `None`, ordered
sequences, string-keyed mappings, and callables.  A callable is reduced
to an opaque handle — `callable(v)` in Python is exactly "v is one of
the function values", and no examined statement looks inside one. -/
inductive Value where
  | int : Int → Value
  | str : String → Value
  | bool : Bool → Value
  | null : Value
  | list : List Value → Value
  | dict : List (String × Value) → Value
  | closure : Nat → Value

/-- Expressions, with the operator kept as the string the source
compares against (`node.op == "+"` etc.). -/
inductive Expr where
  | lit : Value → Expr
  | ident : String → Expr
  | binop : Expr → String → Expr → Expr
  | unop : String → Expr → Expr

/-- An environment is a Python dict from names to values: an insertion
ordered association list with unique keys. -/
abbrev Env := List (String × Value)

/-- Dict write `env[k] = v`: overwrite in place when the key exists,
append otherwise (Python dicts keep insertion order). -/
def envSet (env : Env) (k : String) (v : Value) : Env :=
  if env.any (fun p => p.1 = k) then
    env.map (fun p => if p.1 = k then (k, v) else p)
  else env ++ [(k, v)]

/-- Dict read: the value at the first (unique) occurrence of the key. -/
def lookupAssoc {α : Type} (l : List (String × α)) (k : String) : Option α :=
  match l.find? (fun p => p.1 = k) with
  | some p => some p.2
  | none => none

/-- Expression evaluation inside src/eval_scheduler_match_recursive.py:
that module's `EvalVisitor` defines no expression visit methods, so
every `expr.accept(self)` lands on the `ASTVisitor` stubs of
src/visitor.py, which return `None`.  Pattern defaults and guards in
that module therefore always evaluate to null. -/
def acceptStub (_ : Expr) : Value := Value.null

/- Patterns (§3.1): a bare name (the string "_" is the wildcard), a
sequence of sub-patterns, an object pattern of slots (key, name, alias,
default), a destructure slot, an alias slot, a rest slot.  A slot's
`name` may itself be a nested pattern, which is what the binder's
`isinstance(slot.name, (ObjectPattern, list))` test dispatches on. -/

mutual
inductive Pattern where
  | ident : String → Pattern
  | seq : List Pattern → Pattern
  | obj : List ObjSlot → Pattern
  | destructure : String → Option Expr → Pattern
  | aliasSlot : String → String → Option Expr → Pattern
  | rest : String → Pattern

inductive ObjSlot where
  | mk : String → SlotName → Option String → Option Expr → ObjSlot

inductive SlotName where
  | name : String → SlotName
  | pat : Pattern → SlotName
end

/-- The binder's `isinstance(slot.name, (ObjectPattern, list))` test:
only object and sequence patterns in slot-name position recurse. -/
def isStructured : SlotName → Bool
  | .pat (.obj _) => true
  | .pat (.seq _) => true
  | _ => false

mutual
/-- Binder `_match_pattern(pattern, value)` of
src/eval_scheduler_match_recursive.py, with the environment threaded
explicitly: "_" matches anything and binds nothing; a name binds the
whole value; a sequence pattern requires a sequence value at least as
long as the pattern and matches position-wise (binding as it goes, with
no rollback of earlier bindings when a later sub-pattern fails); an
object pattern requires a mapping and walks its slots; the slot forms
bind with defaults.  A slot name that is itself a non-structured pattern
object is bound by Python under the object itself as dict key — a key no
string lookup can ever see, so it is observationally inert for the
string-keyed environment and is dropped here (the slot's alias, a
string, is still bound). -/
def matchPattern (p : Pattern) (v : Value) (env : Env) : Bool × Env :=
  match p with
  | .ident n => if n = "_" then (true, env) else (true, envSet env n v)
  | .seq ps =>
    match v with
    | .list vs => if ps.length > vs.length then (false, env) else matchSeq ps vs env
    | _ => (false, env)
  | .obj slots =>
    match v with
    | .dict d => matchSlots slots d env
    | _ => (false, env)
  | .destructure n dflt =>
    let w := match v, dflt with
      | .null, some e => acceptStub e
      | _, _ => v
    (true, envSet env n w)
  | .aliasSlot n a dflt =>
    let w := match v, dflt with
      | .null, some e => acceptStub e
      | _, _ => v
    (true, envSet (envSet env n w) a w)
  | .rest n =>
    match v with
    | .null => (true, envSet env n (Value.list []))
    | _ => (true, envSet env n v)

/-- Loop `for p, v in zip(pattern, value)` of the sequence case: stop at
the first failing sub-pattern, keeping the bindings made so far. -/
def matchSeq (ps : List Pattern) (vs : List Value) (env : Env) : Bool × Env :=
  match ps, vs with
  | [], _ => (true, env)
  | _ :: _, [] => (true, env)
  | p :: psr, v :: vsr =>
    let r := matchPattern p v env
    if r.1 then matchSeq psr vsr r.2 else (false, r.2)

/-- Loop `for slot in pattern.slots` of the object case: a missing key
binds the default (and the alias) when a default exists and fails the
match otherwise; a present key recurses for structured slot names and
binds name and alias otherwise. -/
def matchSlots (slots : List ObjSlot) (d : List (String × Value)) (env : Env) : Bool × Env :=
  match slots with
  | [] => (true, env)
  | .mk key nm al dflt :: rest =>
    match lookupAssoc d key with
    | none =>
      match dflt with
      | some e =>
        let dv := acceptStub e
        let env1 := match nm with
          | .name s =>
            let e1 := envSet env s dv
            match al with
            | some a => envSet e1 a dv
            | none => e1
          | .pat _ =>
            match al with
            | some a => envSet env a dv
            | none => env
        matchSlots rest d env1
      | none => (false, env)
    | some v =>
      match nm with
      | .pat q =>
        if isStructured nm then
          let r := matchPattern q v env
          if r.1 then matchSlots rest d r.2 else (false, r.2)
        else
          let env1 := match al with
            | some a => envSet env a v
            | none => env
          matchSlots rest d env1
      | .name s =>
        let env1 := envSet env s v
        let env2 := match al with
          | some a => envSet env1 a v
          | none => env1
        matchSlots rest d env2
end

/-- A match case `Case(pattern, guard?, body)`.  In the module under
study the body statements and the guard expression all dispatch to
visitor stubs: a body cannot touch the environment, and a guard
evaluates to `None`, which is falsy. -/
structure MatchCase where
  pattern : Pattern
  guard : Option Expr
  body : List Expr

/-- Case loop of `visit_Match` in src/eval_scheduler_match_recursive.py:
snapshot the environment, try the pattern; on pattern failure restore
the snapshot and move on; on success with a guard, the guard (a stub)
evaluates to `None`, `bool(None)` is false, the snapshot is restored and
the loop moves on; on success without a guard the case fires and the
environment keeps the pattern's bindings (the body, all stubs, changes
nothing). -/
def visitMatchCases (cases : List MatchCase) (v : Value) (env : Env) : Env :=
  match cases with
  | [] => env
  | c :: rest =>
    let r := matchPattern c.pattern v env
    if r.1 then
      match c.guard with
      | some _ => visitMatchCases rest v env
      | none => r.2
    else visitMatchCases rest v env

/-- Await target: a single task name, or a (possibly nested) sequence of
targets. -/
inductive AwaitTarget where
  | single : String → AwaitTarget
  | group : List AwaitTarget → AwaitTarget

/-
The task registry is abstracted as the mapping from task name to the
task's eventual result value.  Awaiting an enrolled task yields that
value whenever the task completes; `asyncio.gather` and the sequential
await loop both deliver results in argument order, so the order in
which tasks happen to complete never appears in these functions.
-/

mutual
/-- Await dispatcher `_await_task(name)` of
src/eval_scheduler_nested.py: a name yields the task's result, or
`None` (with a "(no such task)" log) when no task of that name is
enrolled; a sequence is walked in order, recursing on nested
sequences. -/
def awaitTaskNested (tasks : List (String × Value)) : AwaitTarget → Value
  | .single n =>
    match lookupAssoc tasks n with
    | none => Value.null
    | some r => r
  | .group ts => Value.list (awaitTaskNestedList tasks ts)

/-- Loop `for n in name` of the sequence case of `_await_task`. -/
def awaitTaskNestedList (tasks : List (String × Value)) : List AwaitTarget → List Value
  | [] => []
  | t :: ts =>
    (match t with
     | .group g => awaitTaskNested tasks (.group g)
     | .single n =>
       match lookupAssoc tasks n with
       | none => Value.null
       | some r => r) :: awaitTaskNestedList tasks ts
end

/-- Parallel branch of `_await_task(name)` in
src/eval_scheduler_join.py: `[self.tasks[n] for n in name if n in
self.tasks]` handed to `asyncio.gather` — results come back in the
filtered name order, and a name with no enrolled task is silently
skipped rather than contributing a null entry. -/
def awaitTaskJoin (tasks : List (String × Value)) (names : List String) : Value :=
  Value.list (names.filterMap (fun n => lookupAssoc tasks n))

/-- Python's `callable(v)` over the modelled values: true exactly for
function values. -/
def isCallable : Value → Bool
  | .closure _ => true
  | _ => false

/-- Callee resolution of `visit_Call` in src/eval_scheduler_hof.py for a
string callee: the sync routines table `self.funcs` first, then the
async table `self.async_funcs`, then the environment (accepted only if
the entry is callable); otherwise the undefined-function error. -/
def visitCallResolve (funcs async_funcs : List (String × Value)) (env : Env)
    (target : String) : Except String Value :=
  match lookupAssoc funcs target with
  | some f => .ok f
  | none =>
    match lookupAssoc async_funcs target with
    | some f => .ok f
    | none =>
      match lookupAssoc env target with
      | some v =>
        if isCallable v then .ok v
        else .error ("Undefined function " ++ target)
      | none => .error ("Undefined function " ++ target)

/-- Modelled from the spec: the lookup order §4.1 claims — "the async
routines table, then the sync routines table, then the current
environment".  Stated only to compare with `visitCallResolve`; the
source consults the sync table first. -/
def visitCallResolveSpecOrder (funcs async_funcs : List (String × Value)) (env : Env)
    (target : String) : Except String Value :=
  match lookupAssoc async_funcs target with
  | some f => .ok f
  | none =>
    match lookupAssoc funcs target with
    | some f => .ok f
    | none =>
      match lookupAssoc env target with
      | some v =>
        if isCallable v then .ok v
        else .error ("Undefined function " ++ target)
      | none => .error ("Undefined function " ++ target)

/-- The amended resolution contract, written independently in
membership-test style: sync table first, then async table, then
callable environment entries. -/
def visitCallResolveAmended (funcs async_funcs : List (String × Value)) (env : Env)
    (target : String) : Except String Value :=
  if (lookupAssoc funcs target).isSome then
    .ok ((lookupAssoc funcs target).getD Value.null)
  else if (lookupAssoc async_funcs target).isSome then
    .ok ((lookupAssoc async_funcs target).getD Value.null)
  else
    match lookupAssoc env target with
    | some v =>
      if isCallable v then .ok v
      else .error ("Undefined function " ++ target)
    | none => .error ("Undefined function " ++ target)

/-- Binary operators of `visit_BinaryOp` in src/eval_visitor.py.  Python
division with an int left operand is `//` (zero divisor raising); `+`
concatenates strings; comparisons are int-to-int or string-to-string.
Python's bool-is-int unification and float promotion fall outside the
modelled value set. -/
def binOpEval (a : Value) (op : String) (b : Value) : Except String Value :=
  if op = "+" then
    match a, b with
    | .int x, .int y => .ok (.int (x + y))
    | .str x, .str y => .ok (.str (x ++ y))
    | _, _ => .error "unsupported operand types for +"
  else if op = "-" then
    match a, b with
    | .int x, .int y => .ok (.int (x - y))
    | _, _ => .error "unsupported operand types for -"
  else if op = "*" then
    match a, b with
    | .int x, .int y => .ok (.int (x * y))
    | _, _ => .error "unsupported operand types for *"
  else if op = "/" then
    match a, b with
    | .int x, .int y =>
      if y = 0 then .error "integer division or modulo by zero"
      else .ok (.int (x / y))
    | _, _ => .error "unsupported operand types for /"
  else if op = "==" then
    match a, b with
    | .int x, .int y => .ok (.bool (x == y))
    | .str x, .str y => .ok (.bool (x == y))
    | .bool x, .bool y => .ok (.bool (x == y))
    | .null, .null => .ok (.bool true)
    | _, _ => .ok (.bool false)
  else if op = "!=" then
    match a, b with
    | .int x, .int y => .ok (.bool (x != y))
    | .str x, .str y => .ok (.bool (x != y))
    | .bool x, .bool y => .ok (.bool (x != y))
    | .null, .null => .ok (.bool false)
    | _, _ => .ok (.bool true)
  else if op = "<" then
    match a, b with
    | .int x, .int y => .ok (.bool (decide (x < y)))
    | .str x, .str y => .ok (.bool (decide (x < y)))
    | _, _ => .error "unsupported operand types for <"
  else if op = ">" then
    match a, b with
    | .int x, .int y => .ok (.bool (decide (x > y)))
    | .str x, .str y => .ok (.bool (decide (x > y)))
    | _, _ => .error "unsupported operand types for >"
  else if op = "<=" then
    match a, b with
    | .int x, .int y => .ok (.bool (decide (x ≤ y)))
    | .str x, .str y => .ok (.bool (decide (x ≤ y)))
    | _, _ => .error "unsupported operand types for <="
  else if op = ">=" then
    match a, b with
    | .int x, .int y => .ok (.bool (decide (x ≥ y)))
    | .str x, .str y => .ok (.bool (decide (x ≥ y)))
    | _, _ => .error "unsupported operand types for >="
  else .error ("Unsupported operator: " ++ op)

/-- Expression evaluation of src/eval_visitor.py (`visit_Literal`,
`visit_Identifier`, `visit_BinaryOp`, `visit_UnaryOp`); errors are the
exceptions the source raises. -/
def evalExpr (env : Env) : Expr → Except String Value
  | .lit v => .ok v
  | .ident n =>
    match lookupAssoc env n with
    | some v => .ok v
    | none => .error ("Undefined variable " ++ n)
  | .binop l op r =>
    match evalExpr env l with
    | .error msg => .error msg
    | .ok a =>
      match evalExpr env r with
      | .error msg => .error msg
      | .ok b => binOpEval a op b
  | .unop op e =>
    match evalExpr env e with
    | .error msg => .error msg
    | .ok a =>
      if op = "-" then
        match a with
        | .int x => .ok (.int (-x))
        | _ => .error "bad operand type for unary -"
      else if op = "+" then
        match a with
        | .int x => .ok (.int x)
        | _ => .error "bad operand type for unary +"
      else .ok a

/-- Statement `visit_Declaration` of src/eval_visitor.py: evaluate the
expression, then bind the target unconditionally — the source performs
no already-declared check before `self.env[node.name] = value`. -/
def visit_Declaration (env : Env) (name : String) (e : Expr) :
    Except String (Env × Value) :=
  match evalExpr env e with
  | .error msg => .error msg
  | .ok v => .ok (envSet env name v, v)

/-- Statement `visit_Assignment` of src/eval_visitor.py: evaluate, then
require the target to exist before overwriting it. -/
def visit_Assignment (env : Env) (name : String) (e : Expr) :
    Except String (Env × Value) :=
  match evalExpr env e with
  | .error msg => .error msg
  | .ok v =>
    if (lookupAssoc env name).isSome then .ok (envSet env name v, v)
    else .error ("Variable " ++ name ++ " not declared")

/-
Concrete states and predicates used by the statements below.
-/

/-- The S5 scenario start state: the fresh VM with EAX=7 and EBX=3. -/
def s5Start : VM :=
  { initVM with regs := { initVM.regs with eax := 7, ebx := 3 } }

/-- A halted VM with EAX=7 and EBX=3 (otherwise fresh). -/
def haltedVM : VM :=
  { initVM with regs := { initVM.regs with eax := 7, ebx := 3 }, halted := true }

/-- A value fits a 32-bit register slot. -/
abbrev regInRange (x : Int) : Prop := 0 ≤ x ∧ x < 2 ^ 32

/-- All nine register slots (the eight GPRs and EIP) are in 32-bit
range. -/
abbrev RegsInRange (r : Regs) : Prop :=
  regInRange r.eax ∧ regInRange r.ebx ∧ regInRange r.ecx ∧ regInRange r.edx ∧
  regInRange r.esi ∧ regInRange r.edi ∧ regInRange r.ebp ∧ regInRange r.esp ∧
  regInRange r.eip

/-- The arithmetic opcode group wired in the dispatch table: ADD, SUB,
MUL, IMUL, DIV, IDIV, INC, DEC. -/
def arithOpcodes : List Nat := [0x0B, 0x0C, 0x0D, 0x0E, 0x0F, 0x10, 0x11, 0x12]

/-- The arithmetic and logic opcode groups of the dispatch table. -/
def arithLogicOpcodes : List Nat :=
  [0x0B, 0x0C, 0x0D, 0x0E, 0x0F, 0x10, 0x11, 0x12,
   0x1B, 0x1C, 0x1D, 0x1E, 0x1F, 0x20, 0x21]

/-
Theorems.  Shared helper lemmas come first, then one theorem (with its
witness or counterexample where required) per examined claim.
-/

set_option maxHeartbeats 2000000

/-- Helper: every handler in the dispatch table computes the same
registers, flags, memory and status whether or not the halted flag was
set on entry, and leaves a set halted flag set (no handler ever reads
`halted`, and none clears it). -/
theorem handlers_ignore_halted (e : Nat × (VM → VM × String))
    (he : e ∈ OPCODE_EXECUTORS) (s : VM) :
    e.2 { s with halted := true } =
      ({ (e.2 { s with halted := false }).1 with halted := true },
       (e.2 { s with halted := false }).2) := by
  fin_cases he <;>
    first
      | rfl
      | (dsimp only [op_div_eax_ebx, op_idiv_eax_ebx, op_div_rm32, op_idiv_rm32,
          op_jcc, cond_zf, cond_nz, cond_sf, cond_ns, cond_of, cond_no, cond_cf, cond_nc,
          op_jne_rel8, op_je_rel8, op_jl_rel8, op_jle_rel8, op_jg_rel8, op_jge_rel8,
          op_jp_rel8, op_jnp_rel8, op_jo_rel8, op_jno_rel8, op_js_rel8, op_jns_rel8,
          op_jbe_rel8, op_ja_rel8, op_jz_rel8, op_jnz_rel8, op_jb_rel8, op_jae_rel8,
          op_loop, op_loope, op_loopne];
         split <;> rfl)

/-- Helper: a successful dispatch lookup returns a handler from the
table. -/
theorem dispatch_mem (op : Nat) (h : VM → VM × String)
    (hd : dispatch op = some h) : ∃ e ∈ OPCODE_EXECUTORS, e.2 = h := by
  unfold dispatch at hd
  cases hf : OPCODE_EXECUTORS.find? (fun e => e.1 == op) with
  | none => rw [hf] at hd; simp at hd
  | some e =>
    rw [hf] at hd
    simp at hd
    exact ⟨e, List.mem_of_find?_eq_some hf, hd⟩

/-- Claim C1 (amended): `Executor.execute` does not refuse execution on
a halted VM — it never reads the halted flag at all.  Executing any
opcode on a state with `halted` set yields exactly the registers, flags,
memory and status string of executing it with `halted` clear, with the
halted flag staying set (the refusal the specification describes lives
only in the CLI driver loop, which stops feeding opcodes after a halting
step). -/
theorem execute_independent_of_halted (op : Nat) (s : VM) :
    vmExecute op { s with halted := true } =
      ({ (vmExecute op { s with halted := false }).1 with halted := true },
       (vmExecute op { s with halted := false }).2) := by
  unfold vmExecute
  cases hd : dispatch op with
  | none => rfl
  | some h =>
    obtain ⟨e, he, rfl⟩ := dispatch_mem op h hd
    exact handlers_ignore_halted e he s

/-- Claim C1, counterexample: on a halted VM with EAX=7 and EBX=3,
`execute(0x0B)` is not a no-op — the ADD handler still runs and changes
EAX to 10. -/
theorem halted_vm_execute_not_noop :
    haltedVM.halted = true ∧ haltedVM.regs.eax = 7 ∧
    (vmExecute 0x0B haltedVM).1.regs.eax = 10 :=
  ⟨rfl, rfl, rfl⟩

/-- Claim C4: DIV (0x0F), IDIV (0x10), wide DIV (0xAC) and wide IDIV
(0xAD) with EBX = 0 all set `halted`, return the divide-by-zero
diagnostic, and leave every register (in particular EAX and EDX), every
flag and all of memory unchanged. -/
theorem div_idiv_zero_divisor_halts (s : VM) (h : s.regs.ebx = 0) :
    vmExecute 0x0F s = ({ s with halted := true }, "DIV by zero → HALT")
    ∧ vmExecute 0x10 s = ({ s with halted := true }, "IDIV by zero → HALT")
    ∧ vmExecute 0xAC s = ({ s with halted := true }, "DIV by zero → HALT")
    ∧ vmExecute 0xAD s = ({ s with halted := true }, "IDIV by zero → HALT") := by
  refine ⟨?_, ?_, ?_, ?_⟩
  · show op_div_eax_ebx s = _
    unfold op_div_eax_ebx
    rw [if_pos h]
  · show op_idiv_eax_ebx s = _
    unfold op_idiv_eax_ebx
    rw [if_pos h]
  · show op_div_rm32 s = _
    unfold op_div_rm32
    rw [if_pos h]
  · show op_idiv_rm32 s = _
    unfold op_idiv_rm32
    rw [if_pos h]

/-- Claim C4, witness: the fresh VM has EBX = 0, and DIV halts it with
the diagnostic while leaving the state otherwise untouched. -/
theorem div_idiv_zero_divisor_halts_witness :
    initVM.regs.ebx = 0 ∧
    vmExecute 0x0F initVM = ({ initVM with halted := true }, "DIV by zero → HALT") :=
  ⟨rfl, (div_idiv_zero_divisor_halts initVM rfl).1⟩

/-- Claim C5: from EAX=7, EBX=3, opcode 0x0B (ADD) gives EAX=10 with
ZF=0 and SF=0, as the scenario says — but opcode 0x78 is wired to
`op_je_rel8` in the live dispatch table (the repository's own DGM_TABLE
documents 0x78 as "inc" / "INC R/M32", and the first, overwritten
dispatch dict even mapped it to `op_inc`), so the follow-up step is a
conditional branch: ZF is 0, the branch is not taken, and EAX stays 10
instead of the claimed 11. -/
theorem scenario_s5_opcode_0x78_executes_je :
    ((vmExecute 0x0B s5Start).1.regs.eax = 10
     ∧ (vmExecute 0x0B s5Start).1.flags.zf = 0
     ∧ (vmExecute 0x0B s5Start).1.flags.sf = 0)
    ∧ (vmExecute 0x78 (vmExecute 0x0B s5Start).1).2 = "JE rel8 → not taken"
    ∧ (vmExecute 0x78 (vmExecute 0x0B s5Start).1).1.regs.eax = 10 :=
  ⟨⟨rfl, rfl, rfl⟩, rfl, rfl⟩

/-- Helper: the flag package computed by `update_flags_arithmetic` at
width 32, read off against the masked result `e`: ZF is set exactly when
`e` is zero, SF is bit 31 of `e`, and PF is set exactly when the low
byte of `e` has evenly many set bits. -/
theorem update_flags_law (result e : Int) (he : e = result % 2 ^ 32) :
    (((update_flags_arithmetic result 32).zf = 1) ↔ e = 0)
    ∧ (update_flags_arithmetic result 32).sf = e / 2 ^ 31 % 2
    ∧ (((update_flags_arithmetic result 32).pf = 1) ↔
        popcount8 (e.toNat % 256) % 2 = 0) := by
  subst he
  have h0 : (0 : Int) ≤ result % 2 ^ 32 := Int.emod_nonneg _ (by norm_num)
  unfold update_flags_arithmetic
  refine ⟨?_, ?_, ?_⟩
  · dsimp only
    split <;> simp_all
  · dsimp only
    rw [Nat.testBit_to_div_mod]
    have hcast : result % 2 ^ 32 = ((result % 2 ^ 32).toNat : Int) :=
      (Int.toNat_of_nonneg h0).symm
    by_cases hb : (result % 2 ^ 32).toNat / 2 ^ 31 % 2 = 1
    · rw [if_pos (by simpa using hb), hcast]
      push_cast
      omega
    · rw [if_neg (by simpa using hb), hcast]
      push_cast
      omega
  · dsimp only
    split <;> simp_all

/-- Helper: a nonnegative value below its modulus is its own residue. -/
theorem emod_self_of_range (q m : Int) (h0 : 0 ≤ q) (h1 : q < m) : q = q % m :=
  (Int.emod_eq_of_lt h0 h1).symm

/-- Claim C3 (amended): after any of the eight arithmetic handlers
(opcodes 0x0B–0x12) that actually performs its operation — for DIV and
IDIV this excludes the divide-by-zero early return, which leaves the
flags stale — the flags satisfy ZF=1 iff EAX=0, SF = bit 31 of EAX
(`(EAX >> 31) & 1`), and PF=1 iff the low byte of EAX has an even number
of set bits.  The register-range hypotheses reflect the 32-bit register
file; they are needed because DIV stores its quotient unmasked. -/
theorem arith_handlers_flag_law (s : VM) (op : Nat)
    (hop : op ∈ arithOpcodes)
    (hax : 0 ≤ s.regs.eax ∧ s.regs.eax < 2 ^ 32)
    (hbx : 0 ≤ s.regs.ebx ∧ s.regs.ebx < 2 ^ 32)
    (hdiv : op = 0x0F ∨ op = 0x10 → s.regs.ebx ≠ 0) :
    (((vmExecute op s).1.flags.zf = 1) ↔ (vmExecute op s).1.regs.eax = 0)
    ∧ (vmExecute op s).1.flags.sf = (vmExecute op s).1.regs.eax / 2 ^ 31 % 2
    ∧ (((vmExecute op s).1.flags.pf = 1) ↔
        popcount8 ((vmExecute op s).1.regs.eax.toNat % 256) % 2 = 0) := by
  have hq : ∀ b : Int, 0 ≤ b → b ≠ 0 →
      s.regs.eax / b = s.regs.eax / b % 2 ^ 32 := by
    intro b hb0 hbne
    refine emod_self_of_range _ _ (Int.ediv_nonneg hax.1 hb0) ?_
    exact lt_of_le_of_lt (Int.ediv_le_self b hax.1) hax.2
  simp only [arithOpcodes, List.mem_cons, List.not_mem_nil, or_false] at hop
  rcases hop with rfl | rfl | rfl | rfl | rfl | rfl | rfl | rfl
  · exact update_flags_law _ _ rfl
  · exact update_flags_law _ _ rfl
  · exact update_flags_law _ _ rfl
  · exact update_flags_law _ _ (Int.emod_emod_of_dvd _ dvd_rfl).symm
  · simp only [show vmExecute 0x0F s = op_div_eax_ebx s from rfl]
    unfold op_div_eax_ebx
    rw [if_neg (hdiv (Or.inl rfl))]
    exact update_flags_law _ _ (hq _ hbx.1 (hdiv (Or.inl rfl)))
  · simp only [show vmExecute 0x10 s = op_idiv_eax_ebx s from rfl]
    unfold op_idiv_eax_ebx
    rw [if_neg (hdiv (Or.inr rfl))]
    exact update_flags_law _ _ (hq _ hbx.1 (hdiv (Or.inr rfl)))
  · exact update_flags_law _ _ (Int.emod_emod_of_dvd _ dvd_rfl).symm
  · exact update_flags_law _ _ (Int.emod_emod_of_dvd _ dvd_rfl).symm

/-- Claim C3, witness: on the fresh VM with EAX=7, EBX=3, ADD (0x0B)
leaves EAX=10 and the flag law holds (ZF=0 with EAX nonzero, SF=0,
PF=0 for the two set bits of 10). -/
theorem arith_handlers_flag_law_witness :
    ((0x0B ∈ arithOpcodes)
      ∧ (0 ≤ s5Start.regs.eax ∧ s5Start.regs.eax < 2 ^ 32)
      ∧ (0 ≤ s5Start.regs.ebx ∧ s5Start.regs.ebx < 2 ^ 32))
    ∧ ((((vmExecute 0x0B s5Start).1.flags.zf = 1) ↔
          (vmExecute 0x0B s5Start).1.regs.eax = 0)
       ∧ (vmExecute 0x0B s5Start).1.flags.sf =
           (vmExecute 0x0B s5Start).1.regs.eax / 2 ^ 31 % 2
       ∧ (((vmExecute 0x0B s5Start).1.flags.pf = 1) ↔
           popcount8 ((vmExecute 0x0B s5Start).1.regs.eax.toNat % 256) % 2 = 0)) :=
  ⟨⟨by decide, by decide, by decide⟩,
   arith_handlers_flag_law s5Start 0x0B (by decide) (by decide) (by decide)
     (fun hc => by revert hc; decide)⟩

/-- Claim C3, counterexample to the unrestricted statement: on the fresh
VM both EAX and EBX are 0; DIV (0x0F) completes through its
divide-by-zero early return without touching the flags, so afterwards
EAX = 0 while ZF is still 0 — "ZF=1 iff EAX=0" fails after an
arithmetic handler. -/
theorem div_by_zero_leaves_flags_stale :
    (vmExecute 0x0F initVM).1.regs.eax = 0
    ∧ (vmExecute 0x0F initVM).1.flags.zf = 0 :=
  ⟨rfl, rfl⟩

/-- Helper: a masked value is a 32-bit register value. -/
theorem mask32_range (x : Int) : regInRange (mask32 x) :=
  ⟨Int.emod_nonneg _ (by norm_num), Int.emod_lt_of_pos _ (by norm_num)⟩

/-- Helper: a natural number below 2^32 is a 32-bit register value. -/
theorem natlt_range (n : Nat) (h : n < 2 ^ 32) : regInRange (n : Int) :=
  ⟨by positivity, by exact_mod_cast h⟩

/-- Helper: the 32-bit residue is below 2^32. -/
theorem res32_lt (x : Int) : res32 x < 2 ^ 32 := by
  unfold res32
  have h0 : (0 : Int) ≤ x % 2 ^ 32 := Int.emod_nonneg _ (by norm_num)
  have h1 : x % 2 ^ 32 < 2 ^ 32 := Int.emod_lt_of_pos _ (by norm_num)
  omega

/-- Claim C10 (amended): every arithmetic and logic handler (opcodes
0x0B–0x12 and 0x1B–0x21) preserves the 32-bit register invariant;
handlers outside these groups that do unmasked register arithmetic (the
LOOP family on ECX, the string ops on ESI/EDI, the stack ops on ESP,
the EIP bumps) need not. -/
theorem arith_logic_handlers_preserve_invariant (s : VM) (op : Nat)
    (hop : op ∈ arithLogicOpcodes) (hR : RegsInRange s.regs) :
    RegsInRange ((vmExecute op s).1.regs) := by
  obtain ⟨hax, hbx, hrest⟩ := hR
  simp only [arithLogicOpcodes, List.mem_cons, List.not_mem_nil, or_false] at hop
  rcases hop with rfl | rfl | rfl | rfl | rfl | rfl | rfl | rfl |
    rfl | rfl | rfl | rfl | rfl | rfl | rfl
  · exact ⟨mask32_range _, hbx, hrest⟩
  · exact ⟨mask32_range _, hbx, hrest⟩
  · exact ⟨mask32_range _, hbx, hrest⟩
  · exact ⟨mask32_range _, hbx, hrest⟩
  · show RegsInRange ((op_div_eax_ebx s).1.regs)
    unfold op_div_eax_ebx
    split
    · exact ⟨hax, hbx, hrest⟩
    · rename_i hne
      have hbpos : 0 < s.regs.ebx := lt_of_le_of_ne hbx.1 (Ne.symm hne)
      refine ⟨⟨Int.ediv_nonneg hax.1 hbx.1,
               lt_of_le_of_lt (Int.ediv_le_self _ hax.1) hax.2⟩,
              hbx, hrest.1, ⟨Int.emod_nonneg _ hne,
               lt_trans (Int.emod_lt_of_pos _ hbpos) hbx.2⟩,
              hrest.2.2⟩
  · show RegsInRange ((op_idiv_eax_ebx s).1.regs)
    unfold op_idiv_eax_ebx
    split
    · exact ⟨hax, hbx, hrest⟩
    · rename_i hne
      have hbpos : 0 < s.regs.ebx := lt_of_le_of_ne hbx.1 (Ne.symm hne)
      refine ⟨⟨Int.ediv_nonneg hax.1 hbx.1,
               lt_of_le_of_lt (Int.ediv_le_self _ hax.1) hax.2⟩,
              hbx, hrest.1, ⟨Int.emod_nonneg _ hne,
               lt_trans (Int.emod_lt_of_pos _ hbpos) hbx.2⟩,
              hrest.2.2⟩
  · exact ⟨mask32_range _, hbx, hrest⟩
  · exact ⟨mask32_range _, hbx, hrest⟩
  · exact ⟨natlt_range _ (Nat.and_lt_two_pow _ (res32_lt _)), hbx, hrest⟩
  · exact ⟨natlt_range _ (Nat.or_lt_two_pow (res32_lt _) (res32_lt _)), hbx, hrest⟩
  · exact ⟨natlt_range _ (Nat.xor_lt_two_pow (res32_lt _) (res32_lt _)), hbx, hrest⟩
  · exact ⟨mask32_range _, hbx, hrest⟩
  · exact ⟨mask32_range _, hbx, hrest⟩
  · exact ⟨mask32_range _, hbx, hrest⟩
  · refine ⟨natlt_range _ (Nat.or_lt_two_pow ?_ (Nat.and_lt_two_pow _ (by norm_num))),
            hbx, hrest⟩
    exact lt_of_le_of_lt (Nat.div_le_self _ _) (res32_lt _)

/-- Claim C10, counterexample: the fresh VM satisfies the register
invariant with ECX = 0, but the LOOP handler (0x49) decrements ECX with
no mask, leaving ECX = −1, outside [0, 2^32). -/
theorem loop_handler_breaks_register_invariant :
    RegsInRange initVM.regs
    ∧ (vmExecute 0x49 initVM).1.regs.ecx = -1
    ∧ ¬ RegsInRange ((vmExecute 0x49 initVM).1.regs) := by
  refine ⟨by decide, rfl, ?_⟩
  intro h
  have := h.2.2.1.1
  revert this
  decide

/-- Claim C10, witness: on the fresh VM with EAX=7, EBX=3 the invariant
holds and is preserved by ADD (0x0B). -/
theorem arith_logic_handlers_preserve_invariant_witness :
    (0x0B ∈ arithLogicOpcodes ∧ RegsInRange s5Start.regs)
    ∧ RegsInRange ((vmExecute 0x0B s5Start).1.regs) :=
  ⟨⟨by decide, by decide⟩,
   arith_logic_handlers_preserve_invariant s5Start 0x0B (by decide) (by decide)⟩

/-- Claim C2, counterexample: matching the sequence pattern `[x, [y]]`
against the sequence `[1, 2]` binds `x := 1`, then fails on the nested
sequence sub-pattern (2 is not a sequence) — and the failed binder call
leaves `x` bound: the environment is not restored to its pre-attempt
(empty) state by the binder itself. -/
theorem match_pattern_partial_bindings_on_failure :
    matchPattern (.seq [.ident "x", .seq [.ident "y"]])
        (Value.list [.int 1, .int 2]) []
      = (false, [("x", Value.int 1)]) := rfl

/-- Claim C2 (amended): the binder may leave partial bindings behind on
failure; the pre-attempt environment is restored one level up, by
`visit_Match`, which snapshots before each case and resets on pattern
failure (or on a guard, which in this module always evaluates to the
falsy `None`).  Hence a failed case attempt is invisible: the remaining
cases run against exactly the environment the failed case started
from. -/
theorem match_case_rollback (c : MatchCase) (rest : List MatchCase)
    (v : Value) (env : Env)
    (h : (matchPattern c.pattern v env).1 = false ∨ c.guard.isSome) :
    visitMatchCases (c :: rest) v env = visitMatchCases rest v env := by
  have hstep : visitMatchCases (c :: rest) v env =
      (if (matchPattern c.pattern v env).1 then
        (match c.guard with
         | some _ => visitMatchCases rest v env
         | none => (matchPattern c.pattern v env).2)
       else visitMatchCases rest v env) := rfl
  rw [hstep]
  rcases h with h | h
  · rw [if_neg (by simp [h])]
  · rcases hg : c.guard with _ | g
    · rw [hg] at h; cases h
    · split <;> rfl

/-- Claim C2, witness: a case whose sequence pattern fails against a
non-sequence value leaves the (empty) environment untouched for the
remaining (empty) case list. -/
theorem match_case_rollback_witness :
    (matchPattern (Pattern.seq []) (Value.int 0) []).1 = false
    ∧ visitMatchCases [⟨Pattern.seq [], none, []⟩] (Value.int 0) []
        = visitMatchCases [] (Value.int 0) [] :=
  ⟨rfl, match_case_rollback ⟨Pattern.seq [], none, []⟩ [] (Value.int 0) []
          (Or.inl rfl)⟩

/-- Claim C6, counterexample: in the join variant, awaiting `["a", "b"]`
with only task "a" enrolled (result 1) yields the one-element sequence
`[1]` — the missing name "b" is skipped, not represented by a null
entry, so the result does not have one entry per name. -/
theorem await_join_skips_missing_names :
    awaitTaskJoin [("a", Value.int 1)] ["a", "b"] = Value.list [Value.int 1]
    ∧ awaitTaskJoin [("a", Value.int 1)] ["a", "b"]
        ≠ Value.list [Value.int 1, Value.null] := by
  refine ⟨rfl, ?_⟩
  intro hc
  rw [show awaitTaskJoin [("a", Value.int 1)] ["a", "b"] = Value.list [Value.int 1]
      from rfl] at hc
  injection hc with h
  have hlen := congrArg List.length h
  simp at hlen

/-- Helper: the nested variant's sequence loop, over plain names, is the
name-indexed lookup-or-null map. -/
theorem awaitTaskNestedList_map (tasks : List (String × Value))
    (names : List String) :
    awaitTaskNestedList tasks (names.map AwaitTarget.single) =
      names.map (fun n => (lookupAssoc tasks n).getD Value.null) := by
  induction names with
  | nil => rfl
  | cons n ns ih =>
    simp only [List.map_cons, awaitTaskNestedList, ih]
    cases lookupAssoc tasks n <;> rfl

/-- Helper: filtering with a total lookup is the plain lookup map. -/
theorem filterMap_eq_map_of_isSome (tasks : List (String × Value))
    (names : List String)
    (h : ∀ n ∈ names, (lookupAssoc tasks n).isSome) :
    names.filterMap (fun n => lookupAssoc tasks n) =
      names.map (fun n => (lookupAssoc tasks n).getD Value.null) := by
  induction names with
  | nil => rfl
  | cons n ns ih =>
    have hn := h n (List.mem_cons_self n ns)
    rcases hh : lookupAssoc tasks n with _ | r
    · rw [hh] at hn; cases hn
    · simp only [List.filterMap_cons, List.map_cons, hh]
      rw [ih (fun m hm => h m (List.mem_cons_of_mem n hm))]
      rfl

/-- Claim C6 (amended): for a flat sequence of task names, the nested
variant yields one entry per name in the given order — the task's result
or null when no task of that name is enrolled; the join variant skips
names with no enrolled task, but delivers exactly the same one-entry-
per-name sequence whenever every name is enrolled.  (The registry maps
each task to its eventual result, so completion order cannot influence
either function.) -/
theorem await_result_order (tasks : List (String × Value))
    (names : List String) :
    awaitTaskNested tasks (.group (names.map .single)) =
      Value.list (names.map (fun n => (lookupAssoc tasks n).getD Value.null))
    ∧ ((∀ n ∈ names, (lookupAssoc tasks n).isSome) →
        awaitTaskJoin tasks names =
          Value.list (names.map (fun n => (lookupAssoc tasks n).getD Value.null))) := by
  constructor
  · show Value.list _ = _
    rw [awaitTaskNestedList_map]
  · intro h
    unfold awaitTaskJoin
    rw [filterMap_eq_map_of_isSome tasks names h]

/-- Claim C6, witness: with tasks "a" ↦ 1 and "b" ↦ 2 both enrolled,
awaiting `["b", "a"]` yields `[2, 1]` in name order under both
variants. -/
theorem await_result_order_witness :
    (∀ n ∈ ["b", "a"], (lookupAssoc [("a", Value.int 1), ("b", Value.int 2)] n).isSome)
    ∧ awaitTaskNested [("a", Value.int 1), ("b", Value.int 2)]
        (.group (["b", "a"].map .single))
        = Value.list [Value.int 2, Value.int 1]
    ∧ awaitTaskJoin [("a", Value.int 1), ("b", Value.int 2)] ["b", "a"]
        = Value.list [Value.int 2, Value.int 1] := by
  refine ⟨by decide, ?_, ?_⟩
  · rw [(await_result_order [("a", Value.int 1), ("b", Value.int 2)] ["b", "a"]).1]
    rfl
  · rw [(await_result_order [("a", Value.int 1), ("b", Value.int 2)] ["b", "a"]).2
        (by decide)]
    rfl

/-- Claim C7, counterexample: with the name "f" present in both routine
tables (sync handle 1, async handle 2), the source resolves to the sync
table's entry, while the specified order (async first) would resolve to
the async one — and the two are different callables. -/
theorem call_resolution_prefers_sync_table :
    visitCallResolve [("f", Value.closure 1)] [("f", Value.closure 2)] [] "f"
      = .ok (Value.closure 1)
    ∧ visitCallResolveSpecOrder [("f", Value.closure 1)] [("f", Value.closure 2)] [] "f"
      = .ok (Value.closure 2)
    ∧ (Except.ok (Value.closure 1) : Except String Value) ≠ .ok (Value.closure 2) := by
  refine ⟨rfl, rfl, ?_⟩
  intro hc
  injection hc with h
  injection h with h
  cases h

/-- Claim C7 (amended): a string callee resolves through the sync
routines table first, then the async routines table, then the current
environment restricted to callable entries, and raises the
undefined-function error otherwise — the source's chain agrees with
that contract stated independently in membership-test style. -/
theorem resolve_callee_order (funcs async_funcs : List (String × Value))
    (env : Env) (target : String) :
    visitCallResolve funcs async_funcs env target
      = visitCallResolveAmended funcs async_funcs env target := by
  unfold visitCallResolve visitCallResolveAmended
  cases h1 : lookupAssoc funcs target <;>
    cases h2 : lookupAssoc async_funcs target <;>
      simp [h1, h2]

/-- Claim C9, counterexample: declaring `x` in an environment where `x`
is already bound to 1 raises no error — the binding is silently
overwritten with 2. -/
theorem redeclaration_overwrites_without_error :
    visit_Declaration [("x", Value.int 1)] "x" (Expr.lit (Value.int 2))
      = .ok ([("x", Value.int 2)], Value.int 2) := rfl

/-- Claim C9 (amended): `Declaration` binds its target unconditionally —
evaluation of the expression is the only way it can fail, and an
occupied name is simply overwritten; only `Assignment` checks the
environment, raising the not-declared error for an unbound name. -/
theorem declaration_overwrites (env : Env) (name : String) (e : Expr)
    (v : Value) (he : evalExpr env e = .ok v) :
    visit_Declaration env name e = .ok (envSet env name v, v)
    ∧ (lookupAssoc env name = none →
        visit_Assignment env name e
          = .error ("Variable " ++ name ++ " not declared")) := by
  constructor
  · unfold visit_Declaration
    rw [he]
  · intro hn
    unfold visit_Assignment
    rw [he, hn]
    rfl

/-- Claim C9, witness: redeclaring the already-bound `x` succeeds and
overwrites, by the amended statement applied at the counterexample
input. -/
theorem declaration_overwrites_witness :
    evalExpr [("x", Value.int 1)] (Expr.lit (Value.int 2)) = .ok (Value.int 2)
    ∧ visit_Declaration [("x", Value.int 1)] "x" (Expr.lit (Value.int 2))
        = .ok (envSet [("x", Value.int 1)] "x" (Value.int 2), Value.int 2) :=
  ⟨rfl, (declaration_overwrites [("x", Value.int 1)] "x"
          (Expr.lit (Value.int 2)) (Value.int 2) rfl).1⟩

/-- Claim C8, counterexample: the one-slot sequence pattern
`[DestructureSlot("x", default := 5)]` matched against the empty
sequence fails outright — the claimed null-padding with the default
never happens in the match binder. -/
theorem short_value_with_default_fails :
    matchPattern (Pattern.seq [Pattern.destructure "x" (some (Expr.lit (Value.int 5)))])
        (Value.list []) [] = (false, []) := rfl

/-- Claim C8 (amended): a sequence pattern longer than the sequence
value fails unconditionally, before any sub-pattern is examined —
defaults are never consulted and no positions are null-padded in the
match binder (the null-padding behaviour exists only in the
`_bind_values` destructuring helper of the objects evaluator variant,
not in `_match_pattern`). -/
theorem seq_pattern_longer_than_value_fails (ps : List Pattern)
    (vs : List Value) (env : Env) (h : vs.length < ps.length) :
    matchPattern (Pattern.seq ps) (Value.list vs) env = (false, env) := by
  show (if ps.length > vs.length then ((false, env) : Bool × Env)
        else matchSeq ps vs env) = (false, env)
  exact if_pos h

/-- Claim C8, witness: the amended statement applied at the
counterexample input (pattern length 1 against the empty sequence). -/
theorem seq_pattern_longer_than_value_fails_witness :
    ([] : List Value).length <
      [Pattern.destructure "x" (some (Expr.lit (Value.int 5)))].length
    ∧ matchPattern
        (Pattern.seq [Pattern.destructure "x" (some (Expr.lit (Value.int 5)))])
        (Value.list []) [("keep", Value.int 0)]
      = (false, [("keep", Value.int 0)]) :=
  ⟨by decide,
   seq_pattern_longer_than_value_fails _ _ _ (by decide)⟩
